import Mathlib

/-!
Verification development for the "Box This Lap" race-simulation engine.

This file gives a shallow embedding, in Lean 4, of the deterministic
tick-driven simulation core of the repository:

* `src/engine/rng.ts`                      — the Mulberry32 seeded RNG;
* `src/engine/systems/RaceLogicSystem.ts`  — race init, safety car,
  incidents, pit state machine, DRS, overtakes, positions, spatial
  awareness, morale, finish detection;
* the `StrategySystem` (plan generation, in-race pit AI, pit compound);
* the `TyreModel` and the consolidated `PhysicsSystem`;
* the `WeatherSystem` embedded alongside `PhysicsSystem.ts`;
* the `SimulationEngine` orchestrator from `src/engine/simulation.ts`.

Modelling conventions:

* JavaScript numbers are modelled as exact rationals (`ℚ`); floating point
  rounding is outside the scope of this model.  Counters (laps, positions,
  indices) are natural numbers, strategy lap bounds are integers (they can
  go negative transiently through the plan "window noise").
* `Math.exp` and `Math.sin` are transcendental; they are modelled by an
  explicit oracle `JsMath` carried as a parameter.  Every theorem either
  quantifies over the oracle or instantiates it at the (rational) points
  where the concrete run actually evaluates it (e.g. `exp 0 = 1`).
* The strategy planner draws from the *unseeded* `Math.random()`.  This is
  modelled as an explicit stream `MathRandom` threaded through the
  computation, separate from the seeded RNG.
* `Date.now()` (used for the race id) is modelled as an explicit `clock`
  argument to the constructor.
* Vehicles are identified by their `id` field; the JS code mutates vehicle
  objects in place, which the embedding renders as functional updates of
  the vehicle list (vehicles are looked up by `id` where the source relies
  on object identity).
* The falsy-default idiom `x || d` on numbers is rendered by `jsOr`
  (`d` when `x = 0`), and optional chaining `a?.b ?? d` by `Option`.
-/

/-! ### JS number helpers -/

/-- JavaScript's `x || d` default idiom on numeric fields: `0` is falsy. -/
def jsOr (x d : ℚ) : ℚ := if x = 0 then d else x

/-- Oracle for the transcendental functions of the JS `Math` object.
The engine only uses `Math.exp` and `Math.sin` (plus `pow` with integer
exponents, `min`, `max`, `abs`, `floor`, which are exact on `ℚ`). -/
structure JsMath where
  exp : ℚ → ℚ
  sin : ℚ → ℚ

/-! ### SeededRNG — `src/engine/rng.ts` (Mulberry32)

`this.seed += 0x6D2B79F5` keeps the seed an exact (unbounded) integer in
JS; every bitwise step coerces to 32 bits, so `next` only depends on the
seed mod 2^32.  `Math.imul` returns the low 32 bits of the product, and
all the xors/shifts/ors act on the 32-bit value, so the whole pipeline is
faithfully computed in `ℕ` with explicit `% 2^32` reductions. -/

/-- 2^32, the JS unsigned 32-bit modulus. -/
def U32 : ℕ := 4294967296

/-- `Math.imul`: the low 32 bits of the product (sign-agnostic). -/
def imul32 (a b : ℕ) : ℕ := (a * b) % U32

structure SeededRNG where
  seed : ℕ
deriving DecidableEq

namespace SeededRNG

/-- `next(): number` of `rng.ts`: Mulberry32.  Returns a rational in
`[0, 1)` together with the advanced generator. -/
def next (r : SeededRNG) : ℚ × SeededRNG :=
  let s := r.seed + 1831565813      -- 0x6D2B79F5
  let t0 := s % U32
  let t1 := imul32 (Nat.xor t0 (t0 / 32768)) (Nat.lor t0 1)        -- t^t>>>15, t|1
  let t2 := Nat.xor t1 ((t1 + imul32 (Nat.xor t1 (t1 / 128)) (Nat.lor t1 61)) % U32)
  (((Nat.xor t2 (t2 / 16384) : ℕ) : ℚ) / (U32 : ℚ), ⟨s⟩)

/-- `range(min, max)`: `min + next() * (max - min)`. -/
def range (r : SeededRNG) (lo hi : ℚ) : ℚ × SeededRNG :=
  let p := r.next
  (lo + p.1 * (hi - lo), p.2)

/-- `rangeInt(min, max)`: `Math.floor(range(min, max + 1))`. -/
def rangeInt (r : SeededRNG) (lo hi : ℚ) : ℤ × SeededRNG :=
  let p := r.range lo (hi + 1)
  (⌊p.1⌋, p.2)

/-- `chance(p)`: `next() < p`. -/
def chance (r : SeededRNG) (p : ℚ) : Bool × SeededRNG :=
  let q := r.next
  (decide (q.1 < p), q.2)

end SeededRNG

/-! ### The unseeded `Math.random()` stream

The strategy planner and the in-race strategy AI call `Math.random()`
directly (not the seeded RNG).  The ambient stream of values it produces
is modelled explicitly: `stream n` is the n-th value `Math.random()`
returns in program order. -/

structure MathRandom where
  stream : ℕ → ℚ
  idx : ℕ

namespace MathRandom

def next (m : MathRandom) : ℚ × MathRandom :=
  (m.stream m.idx, { m with idx := m.idx + 1 })

end MathRandom

/-! ### Data model — `src/types/index.ts` (latest revision) -/

inductive TyreCompound
  | soft | medium | hard | intermediate | wet
deriving DecidableEq

inductive PaceMode
  | conservative | balanced | aggressive
deriving DecidableEq

inductive ERSMode
  | harvest | balanced | deploy
deriving DecidableEq

inductive WeatherCondition
  | dry | lightRain | heavyRain
deriving DecidableEq

inductive WeatherMode
  | simulation | real
deriving DecidableEq

inductive SafetyCarStatus
  | none | vsc | sc | redFlag
deriving DecidableEq

inductive RaceStatus
  | preRace | racing | finished
deriving DecidableEq

inductive SectorType
  | straight | cornerHighSpeed | cornerMediumSpeed | cornerLowSpeed
deriving DecidableEq

structure TrackSector where
  id : String
  startDistance : ℚ
  endDistance : ℚ
  type : SectorType
  difficulty : ℚ
  maxSpeed : Option ℚ := Option.none
deriving DecidableEq

structure DRSZone where
  detectionDistance : ℚ
  activationDistance : ℚ
  endDistance : ℚ
deriving DecidableEq

structure PitLane where
  entryDistance : ℚ
  exitDistance : ℚ
  speedLimit : ℚ
  stopTime : ℚ
deriving DecidableEq

structure WeatherParams where
  volatility : ℚ
  rainProbability : ℚ
deriving DecidableEq

/-- `Track` of `types/index.ts`; the engine reads `track.pitLane` and
`track.weatherParams` through optional chaining with defaults, hence the
`Option`s. -/
structure Track where
  id : String
  totalDistance : ℚ
  totalLaps : ℕ
  tireDegradationFactor : ℚ
  overtakingDifficulty : ℚ
  trackDifficulty : ℚ
  baseTemperature : ℚ
  weatherParams : Option WeatherParams := Option.none
  sectors : List TrackSector
  drsZones : List DRSZone
  pitLane : Option PitLane := Option.none
deriving DecidableEq

structure DriverSkill where
  racecraft : ℚ
  consistency : ℚ
  tyreManagement : ℚ
  wetWeather : ℚ
deriving DecidableEq

structure DriverPerformance where
  corneringHigh : ℚ
  corneringMedium : ℚ
  corneringLow : ℚ
  straight : ℚ
  temperatureAdaptability : ℚ
deriving DecidableEq

structure DriverPersonality where
  aggression : ℚ
  stressResistance : ℚ
  teamPlayer : ℚ
deriving DecidableEq

structure Driver where
  id : String
  basePace : ℚ
  skill : DriverSkill
  performance : DriverPerformance
  personality : DriverPersonality
  morale : ℚ
  trust : ℚ
deriving DecidableEq

structure StrategyStint where
  compound : TyreCompound
  startLap : ℤ
  endLap : ℤ
  paceMode : Option PaceMode := Option.none
deriving DecidableEq

structure StrategyPlan where
  stints : List StrategyStint
  currentStintIndex : ℕ
deriving DecidableEq

structure WeatherForecastItem where
  timeOffset : ℚ
  cloudCover : ℚ
  rainIntensity : ℚ
deriving DecidableEq

structure SectorCondition where
  sectorId : String
  waterDepth : ℚ
  rubberLevel : ℚ
deriving DecidableEq

structure TelemetryDataPoint where
  distance : ℚ
  speed : ℚ
deriving DecidableEq

structure VehicleTelemetry where
  lastLapSpeedTrace : List TelemetryDataPoint
  currentLapSpeedTrace : List TelemetryDataPoint
deriving DecidableEq

structure VehicleState where
  id : String
  driverId : String
  distanceOnLap : ℚ
  totalDistance : ℚ
  speed : ℚ
  acceleration : ℚ
  lapCount : ℕ
  currentSector : ℕ
  isInPit : Bool
  pitStopCount : ℕ
  boxThisLap : Bool
  tyreCompound : TyreCompound
  tyreWear : ℚ
  tyreAgeLaps : ℕ
  fuelLoad : ℚ
  ersLevel : ℚ
  ersMode : ERSMode
  paceMode : PaceMode
  condition : ℚ
  damage : ℚ
  stress : ℚ
  morale : ℚ
  concentration : ℚ
  drsOpen : Bool
  inDirtyAir : Bool
  isBattling : Bool
  blueFlag : Bool
  currentLapTime : ℚ
  lastLapTime : ℚ
  bestLapTime : ℚ
  gapToLeader : ℚ
  gapToAhead : ℚ
  position : ℕ
  lastPosition : ℕ
  hasFinished : Bool
  strategyPlan : StrategyPlan
  telemetry : VehicleTelemetry
deriving DecidableEq

structure RaceState where
  id : String
  trackId : String
  currentLap : ℕ
  totalLaps : ℕ
  weather : WeatherCondition
  weatherMode : WeatherMode
  weatherForecast : List WeatherForecastItem
  cloudCover : ℚ
  rainIntensityLevel : ℚ
  windSpeed : ℚ
  windDirection : ℚ
  trackTemp : ℚ
  airTemp : ℚ
  rubberLevel : ℚ
  sectorConditions : List SectorCondition
  trackWaterDepth : ℚ
  safetyCar : SafetyCarStatus
  vehicles : List VehicleState
  status : RaceStatus
  checkeredFlag : Bool
  winnerId : Option String
  elapsedTime : ℚ
deriving DecidableEq

/-- Payload of `setRealWeatherData`. -/
structure RealWeatherData where
  cloudCover : ℚ
  windSpeed : ℚ
  windDirection : ℚ
  temp : ℚ
  precipitation : ℚ
deriving DecidableEq

/-! ### TyreModel — `TyreModel.ts` (static tables and pure functions) -/

structure TyreCharacteristics where
  basePaceDelta : ℚ
  baseWearRate : ℚ
  grip : ℚ
  optimalTempLo : ℚ
  optimalTempHi : ℚ
  rainPerformance : ℚ

namespace TyreModel

/-- The `TYRE_COMPOUNDS` table. -/
def compoundTable : TyreCompound → TyreCharacteristics
  | TyreCompound.soft => ⟨0, 7/100, 1, 90, 110, 1/10⟩
  | TyreCompound.medium => ⟨3/5, 45/1000, 992/1000, 100, 120, 1/10⟩
  | TyreCompound.hard => ⟨6/5, 1/40, 985/1000, 110, 130, 1/10⟩
  | TyreCompound.intermediate => ⟨3, 1/20, 96/100, 80, 100, 8/10⟩
  | TyreCompound.wet => ⟨8, 3/50, 9/10, 60, 80, 1⟩

/-- `TyreModel.getWearRate(compound, track, paceMode, currentWear)`. -/
def getWearRate (compound : TyreCompound) (track : Track) (paceMode : PaceMode)
    (currentWear : ℚ) : ℚ :=
  let rate0 := (compoundTable compound).baseWearRate
  let abrasion := jsOr track.tireDegradationFactor 1
  let rate1 := rate0 * abrasion
  let rate2 :=
    match paceMode with
    | PaceMode.aggressive => rate1 * (13/10)
    | PaceMode.conservative => rate1 * (7/10)
    | PaceMode.balanced => rate1
  let rate3 := if currentWear > 60 then rate2 * (11/10) else rate2
  if currentWear > 80 then rate3 * (12/10) else rate3

/-- `TyreModel.getGripFactor(compound, wear, waterDepth)`. -/
def getGripFactor (compound : TyreCompound) (wear : ℚ) (waterDepth : ℚ) : ℚ :=
  let grip0 := (compoundTable compound).grip
  let wearPenalty :=
    if wear < 40 then (wear / 40) * (2/100)
    else if wear < 70 then 2/100 + ((wear - 40) / 30) * (5/100)
    else 7/100 + ((wear - 70) / 30) * (15/100)
  let grip1 := grip0 * (1 - wearPenalty)
  let grip2 :=
    if waterDepth > 0 then
      match compound with
      | TyreCompound.soft | TyreCompound.medium | TyreCompound.hard =>
          grip1 * (1 - min 1 (waterDepth * 2))
      | TyreCompound.intermediate =>
          if waterDepth > 2 then grip1 * (8/10) else grip1
      | TyreCompound.wet =>
          if waterDepth < 1 then grip1 * (95/100) else grip1
    else grip1
  max (1/10) grip2

end TyreModel

/-! ### WeatherSystem — embedded in `src/engine/systems/PhysicsSystem.ts`
(second document; the class owning forecast generation, interpolation,
temperatures, water depth, wind, and the real-weather entry point). -/

/-- `rainIntensityLevel` → discrete `weather` enum; the thresholds
`> 50` / `> 5` appear verbatim at each of the three sites in the source. -/
def weatherOfRain (rain : ℚ) : WeatherCondition :=
  if rain > 50 then WeatherCondition.heavyRain
  else if rain > 5 then WeatherCondition.lightRain
  else WeatherCondition.dry

namespace WeatherSystem

/-- Comparator of `state.weatherForecast.sort((a, b) => a.timeOffset - b.timeOffset)`:
ascending `timeOffset`, stable on ties. -/
def forecastLe (a b : WeatherForecastItem) : Bool :=
  decide (a.timeOffset ≤ b.timeOffset)

/-- The cleanup loop
`while (length > 1 && forecast[1].timeOffset <= elapsedTime) shift()`:
drop leading nodes while the *second* node is already in the past. -/
def dropPastNodes (t : ℚ) : List WeatherForecastItem → List WeatherForecastItem
  | a :: b :: rest =>
      if b.timeOffset ≤ t then dropPastNodes t (b :: rest) else a :: b :: rest
  | l => l

/-- The bracketing-segment search of `WeatherSystem.update`: the first `i`
with `sorted[i].timeOffset ≤ t < sorted[i+1].timeOffset`. -/
def findSegment (t : ℚ) :
    List WeatherForecastItem → Option (WeatherForecastItem × WeatherForecastItem)
  | a :: b :: rest =>
      if a.timeOffset ≤ t ∧ b.timeOffset > t then some (a, b)
      else findSegment t (b :: rest)
  | _ => Option.none

/-- Linear interpolation of the current weather from the forecast, exactly
as in `WeatherSystem.update` (lines 459–482): sort, search the bracketing
segment (falling back to `(first, last)`), guard the zero-width segment,
lerp.  Returns `(cloudCover, rainIntensityLevel)` together with the sorted
forecast (the source's `.sort` mutates `state.weatherForecast` in place).
`cur` is the pre-call `(cloudCover, rainIntensityLevel)` pair, returned
unchanged in the degenerate empty-forecast case (unreachable at run time:
the forecast is initialized non-empty and the cleanup loop keeps at least
one node). -/
def interpolateForecast (forecast : List WeatherForecastItem) (t : ℚ)
    (cur : ℚ × ℚ) : (ℚ × ℚ) × List WeatherForecastItem :=
  let sorted := forecast.mergeSort forecastLe
  match sorted.head?, sorted.getLast? with
  | some first, some last =>
      let seg := (findSegment t sorted).getD (first, last)
      let prevNode := seg.1
      let nextNode := seg.2
      let f :=
        if nextNode.timeOffset > prevNode.timeOffset then
          (t - prevNode.timeOffset) / (nextNode.timeOffset - prevNode.timeOffset)
        else 0
      ((prevNode.cloudCover + (nextNode.cloudCover - prevNode.cloudCover) * f,
        prevNode.rainIntensity + (nextNode.rainIntensity - prevNode.rainIntensity) * f),
       sorted)
  | _, _ => (cur, sorted)

/-- `WeatherSystem.appendForecastNode`: multi-frequency sine noise.
Consumes one RNG draw (the meso-wave phase offset). -/
def appendForecastNode (js : JsMath) (track : Track)
    (forecast : List WeatherForecastItem) (rng : SeededRNG) (timeOffset : ℚ) :
    List WeatherForecastItem × SeededRNG :=
  let params := track.weatherParams.getD ⟨1/2, 3/10⟩
  let t := timeOffset
  let macroWave := js.sin (t / 2500)
  let p := rng.range 0 10
  let mesoWave := js.sin (t / 500 + p.1)
  let microWave := js.sin (t / 80)
  let noise := macroWave * (1/2) + mesoWave * (3/10) * params.volatility
      + microWave * (2/10) * params.volatility
  let baseCloud : ℚ := if params.rainProbability > 1/2 then 60 else 30
  let newCloud := max 0 (min 100 (baseCloud + noise * 50))
  let newRain :=
    if newCloud > 70 then
      let r := ((newCloud - 70) / 30) * 100
      (r / 100) ^ 2 * 100
    else 0
  (forecast ++ [⟨timeOffset, newCloud, newRain⟩], p.2)

/-- `generateInitialForecast`: the current conditions at offset 0 plus 15
nodes at 120 s spacing. -/
def generateInitialForecast (js : JsMath) (track : Track) (state : RaceState)
    (rng : SeededRNG) : RaceState × SeededRNG :=
  let init : List WeatherForecastItem :=
    [⟨0, state.cloudCover, state.rainIntensityLevel⟩]
  let gen := (List.range 15).foldl
    (fun (acc : List WeatherForecastItem × SeededRNG) i =>
      appendForecastNode js track acc.1 acc.2 ((i + 1 : ℕ) * 120))
    (init, rng)
  ({ state with weatherForecast := gen.1 }, gen.2)

/-- `initializeForecast`: populate only when empty. -/
def initForecast (js : JsMath) (track : Track) (state : RaceState)
    (rng : SeededRNG) : RaceState × SeededRNG :=
  if state.weatherForecast.isEmpty then generateInitialForecast js track state rng
  else (state, rng)

/-- `updateWaterDepth`: accumulation vs. drainage/evaporation, applied to
every sector and mirrored to the global average. -/
def updateWaterDepth (state : RaceState) (dt : ℚ) : RaceState :=
  let rainIntensity := state.rainIntensityLevel
  let accumulationRate := (rainIntensity / 100) * (10 / 3600)
  let drainageRate : ℚ := 2 / 3600
  let evaporationRate : ℚ :=
    if rainIntensity < 5 then (1/2) / 3600 * 4 else (1/2) / 3600
  let delta :=
    if rainIntensity > 0 then accumulationRate - drainageRate
    else -(drainageRate + evaporationRate)
  let depthChange := delta * dt
  let sectors := state.sectorConditions.map (fun sector =>
    let wd := max 0 (sector.waterDepth + depthChange)
    let rl := if wd > 1/2 then sector.rubberLevel - (1/1000) * dt else sector.rubberLevel
    { sector with waterDepth := wd, rubberLevel := rl })
  { state with
      sectorConditions := sectors,
      trackWaterDepth := max 0 (state.trackWaterDepth + depthChange) }

/-- `WeatherSystem.update(state, track, dt)`.  Threads the private
`forecastUpdateTimer` and the shared RNG.  In `real` mode only the water
depth evolves. -/
def update (js : JsMath) (track : Track) (state : RaceState)
    (forecastUpdateTimer : ℚ) (rng : SeededRNG) (dt : ℚ) :
    RaceState × ℚ × SeededRNG :=
  if state.weatherMode = WeatherMode.real then
    (updateWaterDepth state dt, forecastUpdateTimer, rng)
  else
    let timer0 := forecastUpdateTimer + dt
    let maintained :
        List WeatherForecastItem × ℚ × SeededRNG :=
      if timer0 > 60 then
        let cleaned := dropPastNodes state.elapsedTime state.weatherForecast
        match cleaned.getLast? with
        | some lastNode =>
            if lastNode.timeOffset < state.elapsedTime + 1800 then
              let ap := appendForecastNode js track cleaned rng
                (lastNode.timeOffset + 120)
              (ap.1, 0, ap.2)
            else (cleaned, 0, rng)
        | Option.none => (cleaned, 0, rng)   -- unreachable: forecast never empties
      else (state.weatherForecast, timer0, rng)
    let forecast1 := maintained.1
    let timer1 := maintained.2.1
    let rng1 := maintained.2.2
    let interp := interpolateForecast forecast1 state.elapsedTime
      (state.cloudCover, state.rainIntensityLevel)
    let cloud := interp.1.1
    let rain := interp.1.2
    let baseTemp := jsOr track.baseTemperature 25
    let rainCooling := (rain / 100) * 5
    let cloudCooling := (cloud / 100) * 3
    let airTemp := baseTemp - rainCooling - cloudCooling
    let solarHeating := (1 - cloud / 100) * 15
    let trackTemp := if rain > 5 then airTemp + 1 else airTemp + solarHeating
    let st1 := { state with
        weatherForecast := interp.2,
        cloudCover := cloud,
        rainIntensityLevel := rain,
        weather := weatherOfRain rain,
        airTemp := airTemp,
        trackTemp := trackTemp }
    let st2 := updateWaterDepth st1 dt
    let d1 := rng1.range (-1) 1
    let wd0 := st2.windDirection + d1.1 * dt
    let wd1 := if wd0 < 0 then wd0 + 360 else wd0
    let wd2 := if wd1 > 360 then wd1 - 360 else wd1
    let d2 := d1.2.range (-1/2) (1/2)
    let ws0 := st2.windSpeed + d2.1 * dt
    let ws1 := if ws0 < 0 then 0 else ws0
    ({ st2 with windDirection := wd2, windSpeed := ws1 }, timer1, d2.2)

/-- `WeatherSystem.setRealWeatherData(state, data)`: a no-op unless the
weather mode is `real`; otherwise copies the payload in, derives the track
temperature, converts precipitation (mm/h) to a rain intensity, and
refreshes the discrete enum. -/
def setRealWeatherData (state : RaceState) (data : RealWeatherData) : RaceState :=
  if state.weatherMode ≠ WeatherMode.real then state
  else
    let rain :=
      if data.precipitation > 0 then min 100 ((data.precipitation / 5) * 100)
      else 0
    { state with
        cloudCover := data.cloudCover,
        windSpeed := data.windSpeed,
        windDirection := data.windDirection,
        airTemp := data.temp,
        trackTemp := data.temp + (if data.cloudCover < 50 then 10 else 2),
        rainIntensityLevel := rain,
        weather := weatherOfRain rain }

end WeatherSystem

/-! ### StrategySystem — plan generation, in-race pit AI, pit compound
(the consolidated `StrategySystem` version with `boxThisLap` intent).

This system draws from the *unseeded* `Math.random()` (modelled by
`MathRandom`), not from the shared seeded RNG. -/

/-- Result of the forecast-intelligence check (`'pit' | 'stay_out' | 'neutral'`). -/
inductive ForecastAction
  | pit | stayOut | neutral
deriving DecidableEq

namespace StrategySystem

/-- `Math.floor(Math.random() * n)` used as an array index. -/
def pickIndex (r : ℚ) (n : ℕ) : ℕ := (⌊r * n⌋).toNat

/-- Predicate of the "aggressive strategies" filter:
`x.s.length > 2 || x.s[0].compound === 'soft'`. -/
def isAggressiveStrategy (s : List StrategyStint) : Bool :=
  decide (s.length > 2) ||
    (match s.head? with
     | some st => decide (st.compound = TyreCompound.soft)
     | Option.none => false)

/-- Predicate of the "conservative strategies" filter:
`x.s.length === 2 && x.s[0].compound !== 'soft'`. -/
def isConservativeStrategy (s : List StrategyStint) : Bool :=
  decide (s.length = 2) &&
    (match s.head? with
     | some st => decide (st.compound ≠ TyreCompound.soft)
     | Option.none => false)

/-- Indices (in order) of the candidate strategies satisfying `p`:
`strategies.map((s,i) => ({s,i})).filter(...).map(x => x.i)`. -/
def strategyIndices (p : List StrategyStint → Bool) (strategies : List (List StrategyStint)) :
    List ℕ :=
  (strategies.enum.filter (fun q => p q.2)).map (fun q => q.1)

/-- The weighted strategy selection of `initializeStrategy` (aggression
biased, drawing from `Math.random()`); returns the chosen index. -/
def chooseStrategyIndex (aggression : ℚ) (randomSeed : ℚ)
    (strategies : List (List StrategyStint)) (m : MathRandom) : ℕ × MathRandom :=
  if strategies.length > 1 then
    if aggression > 85 then
      if randomSeed < 3/5 then
        let aggIndices := strategyIndices isAggressiveStrategy strategies
        if aggIndices.length > 0 then
          let r := m.next
          ((aggIndices.get? (pickIndex r.1 aggIndices.length)).getD 0, r.2)
        else (0, m)
      else
        let r := m.next
        (pickIndex r.1 strategies.length, r.2)
    else if aggression < 60 then
      if randomSeed < 3/5 then
        let consIndices := strategyIndices isConservativeStrategy strategies
        if consIndices.length > 0 then
          let r := m.next
          ((consIndices.get? (pickIndex r.1 consIndices.length)).getD 0, r.2)
        else
          let oneStopIndices :=
            strategyIndices (fun s => decide (s.length = 2)) strategies
          if oneStopIndices.length > 0 then
            let r := m.next
            ((oneStopIndices.get? (pickIndex r.1 oneStopIndices.length)).getD 0, r.2)
          else (0, m)
      else
        let r := m.next
        (pickIndex r.1 strategies.length, r.2)
    else
      let r := m.next
      (pickIndex r.1 strategies.length, r.2)
  else (0, m)

/-- The "window noise" loop: for every stint except the last, shift its
planned `endLap` by a draw in `{-2..2}`, clamp to `≥ 1`, force strict
monotonicity over the previous (already shifted) stop, and propagate the
new boundary to the next stint's `startLap`.  `cur` is the stint currently
being processed, `prevEnd` the previous stint's final `endLap` (if any). -/
def planNoiseGo (m : MathRandom) (prevEnd : Option ℤ) (cur : StrategyStint) :
    List StrategyStint → List StrategyStint × MathRandom
  | [] => ([cur], m)
  | s2 :: rest =>
      let r := m.next
      let noise : ℤ := ⌊r.1 * 5⌋ - 2
      let e1 := cur.endLap + noise
      let e2 := if e1 < 1 then 1 else e1
      let e3 :=
        match prevEnd with
        | some pe => if e2 ≤ pe then pe + 1 else e2
        | Option.none => e2
      let tl := planNoiseGo r.2 (some e3) { s2 with startLap := e3 } rest
      ({ cur with endLap := e3 } :: tl.1, tl.2)

/-- `plan.stints[plan.stints.length - 1].endLap = totalLaps`. -/
def setLastEndLap (tl : ℤ) : List StrategyStint → List StrategyStint
  | [] => []
  | [s] => [{ s with endLap := tl }]
  | s :: s2 :: rest => s :: setLastEndLap tl (s2 :: rest)

/-- `StrategySystem.initializeStrategy(driver, track, totalLaps, rainProb)`.
(The name is shortened to `initStrategyPlan` in this development.)  All
random draws go through the unseeded `Math.random()` stream.  The unused
source local `hardLife` is omitted (it consumes no randomness). -/
def initStrategyPlan (driver : Driver) (track : Track) (totalLaps : ℕ)
    (rainProb : ℚ) (m : MathRandom) : StrategyPlan × MathRandom :=
  if rainProb > 3/5 then
    let mid : ℤ := ⌊(totalLaps : ℚ) * (4/10)⌋
    ({ stints := [⟨TyreCompound.wet, 0, mid, Option.none⟩,
                  ⟨TyreCompound.intermediate, mid, (totalLaps : ℤ), Option.none⟩],
       currentStintIndex := 0 }, m)
  else
    let degFactor := jsOr track.tireDegradationFactor 1
    let mgmtSkill := driver.skill.tyreManagement
    let v := m.next
    let variance := 9/10 + v.1 * (2/10)
    let wearMult := degFactor * (1 - (mgmtSkill - 50) / 200) * variance
    let softLife := 15 / wearMult
    let mediumLife := 25 / wearMult
    let stopLapA : ℤ := ⌊softLife * (9/10)⌋
    let sA : List (List StrategyStint) :=
      if stopLapA > 0 ∧ stopLapA < (totalLaps : ℤ) then
        [[⟨TyreCompound.soft, 0, stopLapA, Option.none⟩,
          ⟨TyreCompound.hard, stopLapA, (totalLaps : ℤ), Option.none⟩]]
      else []
    let stopLapB : ℤ := ⌊mediumLife * (9/10)⌋
    let sB : List (List StrategyStint) :=
      if stopLapB > 0 ∧ stopLapB < (totalLaps : ℤ) then
        [[⟨TyreCompound.medium, 0, stopLapB, Option.none⟩,
          ⟨TyreCompound.hard, stopLapB, (totalLaps : ℤ), Option.none⟩]]
      else []
    let stopLapC1 : ℤ := ⌊softLife * (8/10)⌋
    let stopLapC2 : ℤ := stopLapC1 + ⌊mediumLife * (8/10)⌋
    let sC : List (List StrategyStint) :=
      if stopLapC1 > 0 ∧ stopLapC2 < (totalLaps : ℤ) then
        [[⟨TyreCompound.soft, 0, stopLapC1, Option.none⟩,
          ⟨TyreCompound.medium, stopLapC1, stopLapC2, Option.none⟩,
          ⟨TyreCompound.medium, stopLapC2, (totalLaps : ℤ), Option.none⟩]]
      else []
    let stopLapD1 : ℤ := ⌊softLife * (85/100)⌋
    let stopLapD2 : ℤ := stopLapD1 + ⌊mediumLife * (85/100)⌋
    let sD : List (List StrategyStint) :=
      if stopLapD1 > 0 ∧ stopLapD2 < (totalLaps : ℤ) then
        [[⟨TyreCompound.soft, 0, stopLapD1, Option.none⟩,
          ⟨TyreCompound.medium, stopLapD1, stopLapD2, Option.none⟩,
          ⟨TyreCompound.soft, stopLapD2, (totalLaps : ℤ), Option.none⟩]]
      else []
    let strategies0 := sA ++ sB ++ sC ++ sD
    let aggression := driver.personality.aggression
    let rs := v.2.next
    let strategies :=
      if strategies0.length = 0 then
        [[⟨TyreCompound.medium, 0, (⌊(totalLaps : ℚ) / 2⌋ : ℤ), Option.none⟩,
          ⟨TyreCompound.hard, (⌊(totalLaps : ℚ) / 2⌋ : ℤ), (totalLaps : ℤ), Option.none⟩]]
      else strategies0
    let ch := chooseStrategyIndex aggression rs.1 strategies rs.2
    let stints0 := (strategies.get? ch.1).getD []
    let noised :=
      match stints0 with
      | [] => (([] : List StrategyStint), ch.2)   -- unreachable: candidates are non-empty
      | h :: t => planNoiseGo ch.2 Option.none h t
    ({ stints := setLastEndLap (totalLaps : ℤ) noised.1, currentStintIndex := 0 },
     noised.2)

/-- `checkForecast(state, currentCompound, currentRain)`: averages the
forecast rain over the next 300 s and compares the ideal compound class
(`wet`/`intermediate`/slick, the latter encoded `none`) with the current
one. -/
def checkForecast (state : RaceState) (currentCompound : TyreCompound)
    (currentRain : ℚ) : ForecastAction :=
  let lookahead : ℚ := 300
  let acc := state.weatherForecast.foldl
    (fun (a : ℚ × ℚ) f =>
      if f.timeOffset > state.elapsedTime ∧ f.timeOffset < state.elapsedTime + lookahead
      then (a.1 + f.rainIntensity, a.2 + 1) else a)
    ((0 : ℚ), (0 : ℚ))
  let avgFutureRain := if acc.2 > 0 then acc.1 / acc.2 else currentRain
  let futureIdeal : Option TyreCompound :=
    if avgFutureRain > 60 then some TyreCompound.wet
    else if avgFutureRain > 10 then some TyreCompound.intermediate
    else Option.none
  let currentType : Option TyreCompound :=
    if currentCompound = TyreCompound.wet ∨ currentCompound = TyreCompound.intermediate
    then some currentCompound else Option.none
  if currentType = futureIdeal then
    if currentType = Option.none ∧ currentRain > 40 then ForecastAction.pit
    else ForecastAction.stayOut
  else ForecastAction.neutral

/-- `StrategySystem.getPitCompound(vehicle, state, totalLaps)`: the
compound fitted at a pit release — weather override first, then the next
planned stint, then the laps-remaining fallback. -/
def getPitCompound (vehicle : VehicleState) (state : RaceState) (totalLaps : ℕ) :
    TyreCompound :=
  let rain := state.rainIntensityLevel
  if rain > 60 then TyreCompound.wet
  else if rain > 10 then TyreCompound.intermediate
  else
    let plan := vehicle.strategyPlan
    let nextStintIndex := plan.currentStintIndex + 1
    match plan.stints.get? nextStintIndex with
    | some s => s.compound
    | Option.none =>
        let lapsLeft : ℤ := (totalLaps : ℤ) - (state.currentLap : ℤ)
        if lapsLeft < 15 then TyreCompound.soft
        else if lapsLeft < 30 then TyreCompound.medium
        else TyreCompound.hard

/-- `StrategySystem.updateStrategyAI(vehicle, state, track, driver)`: sets
the `boxThisLap` intent in a window 50–1000 m before the pit entry, from
weather mismatch, damage, wear, and the plan window (with undercut and
random components drawn from `Math.random()`). -/
def updateStrategyAI (driver : Driver) (track : Track) (state : RaceState)
    (vehicle : VehicleState) (m : MathRandom) : VehicleState × MathRandom :=
  let entryDist := (track.pitLane.map (fun pl => pl.entryDistance)).getD
    (track.totalDistance - 200)
  let d0 := entryDist - vehicle.distanceOnLap
  let distToEntry := if d0 < -track.totalDistance / 2 then d0 + track.totalDistance else d0
  if distToEntry > 1000 ∨ distToEntry < 50 then (vehicle, m)
  else if vehicle.isInPit ∨ vehicle.boxThisLap then (vehicle, m)
  else
    let rain := state.rainIntensityLevel
    let compound := vehicle.tyreCompound
    let plan := vehicle.strategyPlan
    let currentStint := plan.stints.get? plan.currentStintIndex
    let pn0 : Bool :=
      if rain > 60 then decide (compound ≠ TyreCompound.wet)
      else if rain > 10 then
        decide (compound ≠ TyreCompound.intermediate ∧ compound ≠ TyreCompound.wet)
      else decide (compound = TyreCompound.wet ∨ compound = TyreCompound.intermediate)
    let pn1 :=
      if pn0 ∧ checkForecast state compound rain = ForecastAction.stayOut
      then false else pn0
    let pn2 := if vehicle.damage > 15 then true else pn1
    let pn3 := if vehicle.tyreWear > 85 then true else pn2
    let res : Bool × MathRandom :=
      match currentStint with
      | some cs =>
          if pn3 then (pn3, m)
          else
            let targetLap := cs.endLap
            let isLastStint := plan.currentStintIndex ≥ plan.stints.length - 1
            let inner : Bool × MathRandom :=
              if isLastStint then (false, m)
              else
                let windowOpen := targetLap - 2
                let windowClose := targetLap + 2
                if (state.currentLap : ℤ) > windowClose then (true, m)
                else if (state.currentLap : ℤ) ≥ windowOpen then
                  let p0 : ℚ :=
                    if (state.currentLap : ℤ) = targetLap then 1/2
                    else if (state.currentLap : ℤ) > targetLap then 8/10
                    else 2/10
                  let und : ℚ × MathRandom :=
                    if driver.personality.aggression > 60 then
                      let r := m.next
                      (if r.1 < 3/10 then p0 + 3/10 else p0, r.2)
                    else (p0, m)
                  let p1 := if vehicle.tyreWear > 60 then und.1 + 4/10 else und.1
                  let r2 := und.2.next
                  (decide (r2.1 < p1), r2.2)
                else (false, m)
            let fs := if vehicle.tyreWear > 80 then true else inner.1
            (fs, inner.2)
      | Option.none => (pn3, m)
    if res.1 then ({ vehicle with boxThisLap := true }, res.2) else (vehicle, res.2)

end StrategySystem

/-! ### Generic list helpers for the in-place mutation idioms of the source -/

/-- Replace the first element satisfying `p` (the JS pattern of mutating
the object returned by `find`). -/
def updateFirst (p : α → Bool) (f : α → α) : List α → List α
  | [] => []
  | a :: l => if p a then f a :: l else a :: updateFirst p f l

/-- Model of a `forEach` loop that mutates each vehicle in place while
later iterations can observe the mutations of earlier ones (and other
state threads through `σ`).  `f` receives the current accumulator, the
vehicle being processed, and the "live" array — updated prefix ++ current
++ pending suffix — exactly what `state.vehicles` contains mid-loop in JS
(the current vehicle appears in its pre-step version; no step of the
engine reads the vehicle it is currently updating back out of the
array). -/
def vehicleFold (f : σ → VehicleState → List VehicleState → VehicleState × σ)
    (done : List VehicleState) : List VehicleState → σ → List VehicleState × σ
  | [], s => (done, s)
  | v :: todo, s =>
      let r := f s v (done ++ v :: todo)
      vehicleFold f (done ++ [r.1]) todo r.2

/-- Driver lookup (`driverMap.get`). -/
def findDriver (drivers : List Driver) (id : String) : Option Driver :=
  drivers.find? (fun d => d.id = id)

/-- The private pit-stop record of `RaceLogicSystem` (one per car in the
pit lane). -/
structure PitProgress where
  timeLeft : ℚ
  totalDuration : ℚ
  stopDuration : ℚ
  laneTime : ℚ
  entryDist : ℚ
  laneTrackDist : ℚ
deriving DecidableEq

/-- Store a pit record under a vehicle id. -/
def setPitState (l : List (String × PitProgress)) (id : String) (ps : PitProgress) :
    List (String × PitProgress) :=
  l.map (fun p => if p.1 = id then (id, ps) else p)

/-- Remove a vehicle's pit record (`pitStates.delete`). -/
def removePitState (l : List (String × PitProgress)) (id : String) :
    List (String × PitProgress) :=
  l.filter (fun p => !(p.1 = id : Bool))

/-! ### RaceLogicSystem — `src/engine/systems/RaceLogicSystem.ts` -/

namespace RaceLogicSystem

/-- "active" filter used by the incident sampler and the red-flag restart:
`damage < 100 && !hasFinished`. -/
def isActive (v : VehicleState) : Bool :=
  decide (v.damage < 100) && !v.hasFinished

/-- `performRedFlagRestart`: re-grid the active cars by current position at
16 m spacing starting 50 m before the line, unlap everyone to the leader's
lap, zero speeds/gaps and clear transient flags. -/
def performRedFlagRestart (track : Track) (state : RaceState) : RaceState :=
  let actives := (state.vehicles.filter isActive).mergeSort
    (fun a b => decide (a.position ≤ b.position))
  let leaderLap := (actives.head?.map (fun v => v.lapCount)).getD 0
  let updated := actives.enum.map (fun p =>
    let i := p.1
    let v := p.2
    let d0 := (track.totalDistance - 50) - (i : ℚ) * 16
    let d1 := if d0 < 0 then d0 + track.totalDistance else d0
    { v with
        distanceOnLap := d1,
        lapCount := if i = 0 then v.lapCount else leaderLap,
        speed := 0, gapToLeader := 0, gapToAhead := 0,
        isBattling := false, inDirtyAir := false, blueFlag := false })
  { state with
      vehicles := state.vehicles.map (fun v =>
        (updated.find? (fun u => u.id = v.id)).getD v) }

/-- `updateSafetyCar`: count the private timer down; on expiry perform the
red-flag restart if applicable and return to green. -/
def updateSafetyCar (track : Track) (state : RaceState) (timer : ℚ) (dt : ℚ) :
    RaceState × ℚ :=
  if state.safetyCar = SafetyCarStatus.none then (state, timer)
  else
    let t1 := timer - dt
    if t1 ≤ 0 then
      let st1 :=
        if state.safetyCar = SafetyCarStatus.redFlag
        then performRedFlagRestart track state else state
      ({ st1 with safetyCar := SafetyCarStatus.none }, 0)
    else (state, t1)

/-- The per-vehicle incident risk of `checkIncidents` (all the situational
multipliers, in source order). -/
def incidentRisk (driver : Driver) (track : Track) (state : RaceState)
    (v : VehicleState) (dt : ℚ) : ℚ :=
  let risk0 := (1/100000) * dt
  let risk1 := risk0 * (1 + (100 - v.concentration) / 10)
  let risk2 :=
    if v.isBattling then
      (if driver.personality.aggression > 60 then risk1 * 4 * (3/2) else risk1 * 4)
    else risk1
  let risk3 := if v.inDirtyAir then risk2 * (3/2) else risk2
  let risk4 := if v.tyreWear > 70 then risk3 * (1 + (v.tyreWear - 70) / 15) else risk3
  let risk5 :=
    if state.weather ≠ WeatherCondition.dry then
      (if v.tyreCompound = TyreCompound.soft ∨ v.tyreCompound = TyreCompound.medium
          ∨ v.tyreCompound = TyreCompound.hard
       then risk4 * 10 else risk4 * 2)
    else risk4
  let consistencyFactor := driver.skill.consistency / 100
  let risk6 := risk5 * (1 + (1 - consistencyFactor) * 3)
  let stressFactor := v.stress / 100
  let resistance := driver.personality.stressResistance / 100
  let risk7 :=
    if stressFactor > 8/10 then risk6 * (1 + (1 - resistance) * 2) else risk6
  let difficulty := jsOr track.trackDifficulty (1/2)
  risk7 * (1 + difficulty * (1/2))

/-- The severity resolution once an incident fires: returns the damaged
vehicle, the new safety-car status, the safety-car timer, and the RNG. -/
def applyIncident (track : Track) (v : VehicleState) (rng : SeededRNG) :
    VehicleState × SafetyCarStatus × ℚ × SeededRNG :=
  let s0 : ℚ := 0
  let s1 := if v.speed > 60 then s0 + 40 else s0
  let s2 := if v.speed > 80 then s1 + 20 else s1
  let s3 :=
    match track.sectors.get? (v.currentSector - 1) with
    | some sec =>
        let a := if sec.type = SectorType.cornerHighSpeed then s2 + 30 else s2
        if sec.type = SectorType.straight then a + 10 else a
    | Option.none => s2
  let rr := rng.range 0 30
  let severityScore := s3 + rr.1
  if severityScore > 80 then
    let t := rr.2.range 15 45
    ({ v with damage := 100, speed := 0 }, SafetyCarStatus.redFlag, t.1, t.2)
  else if severityScore > 50 then
    let t := rr.2.range 180 400
    let c := t.2.chance (7/10)
    if c.1 then
      ({ v with damage := 100, speed := 0 }, SafetyCarStatus.sc, t.1, c.2)
    else
      let d := c.2.range 30 60
      ({ v with damage := v.damage + d.1 }, SafetyCarStatus.sc, t.1, d.2)
  else
    let t := rr.2.range 45 120
    let d := t.2.range 5 20
    ({ v with damage := v.damage + d.1, speed := v.speed * (3/10) },
     SafetyCarStatus.vsc, t.1, d.2)

/-- The per-vehicle loop of `checkIncidents` (early exit after the first
incident: "only one incident per tick"). -/
def checkIncidentsGo (track : Track) (drivers : List Driver) (state : RaceState)
    (dt : ℚ) (rng : SeededRNG) (timer : ℚ) :
    List VehicleState → List VehicleState × SafetyCarStatus × ℚ × SeededRNG
  | [] => ([], state.safetyCar, timer, rng)
  | v :: rest =>
      if isActive v then
        match findDriver drivers v.driverId with
        | some driver =>
            let risk := incidentRisk driver track state v dt
            let c := rng.chance risk
            if c.1 then
              let ap := applyIncident track v c.2
              (ap.1 :: rest, ap.2.1, ap.2.2.1, ap.2.2.2)
            else
              let tl := checkIncidentsGo track drivers state dt c.2 timer rest
              (v :: tl.1, tl.2)
        | Option.none =>
            let tl := checkIncidentsGo track drivers state dt rng timer rest
            (v :: tl.1, tl.2)
      else
        let tl := checkIncidentsGo track drivers state dt rng timer rest
        (v :: tl.1, tl.2)

/-- `checkIncidents`: sampled only under green flag, in a racing state,
from lap 2. -/
def checkIncidents (track : Track) (drivers : List Driver) (state : RaceState)
    (timer : ℚ) (rng : SeededRNG) (dt : ℚ) : RaceState × ℚ × SeededRNG :=
  if state.safetyCar ≠ SafetyCarStatus.none ∨ state.status ≠ RaceStatus.racing then
    (state, timer, rng)
  else if state.currentLap < 2 then (state, timer, rng)
  else
    let r := checkIncidentsGo track drivers state dt rng timer state.vehicles
    ({ state with vehicles := r.1, safetyCar := r.2.1 }, r.2.2.1, r.2.2.2)

/-- The lazy initialization of a pit record (`if (!this.pitStates.has(...))`):
stop duration drawn in [2, 2.8) with a 1 % error chance redrawing in
[4, 10), +10 s repair surcharge when damaged; lane time from the track's
`stopTime` (or geometry over the speed limit), floored at 5 s. -/
def pitEnsure (track : Track) (v : VehicleState)
    (pitStates : List (String × PitProgress)) (rng : SeededRNG) :
    PitProgress × List (String × PitProgress) × SeededRNG :=
  match pitStates.find? (fun p => p.1 = v.id) with
  | some p => (p.2, pitStates, rng)
  | Option.none =>
      let speedLimit := (track.pitLane.map (fun pl => pl.speedLimit)).getD (222/10)
      let sd0 := rng.range 2 (28/10)
      let ce := sd0.2.chance (1/100)
      let sd : ℚ × SeededRNG :=
        if ce.1 then
          let e := ce.2.range 4 10
          (e.1, e.2)
        else (sd0.1, ce.2)
      let stopDuration := if v.damage > 10 then sd.1 + 10 else sd.1
      let entryDist := (track.pitLane.map (fun pl => pl.entryDistance)).getD
        (track.totalDistance - 200)
      let exitDist := (track.pitLane.map (fun pl => pl.exitDistance)).getD 200
      let laneTrackDist :=
        if exitDist < entryDist then (track.totalDistance - entryDist) + exitDist
        else exitDist - entryDist
      let lt0 := (track.pitLane.map (fun pl => pl.stopTime)).getD
        (laneTrackDist / speedLimit)
      let laneTime := if lt0 < 5 then 5 else lt0
      let totalDuration := laneTime + stopDuration
      let ps : PitProgress :=
        ⟨totalDuration, totalDuration, stopDuration, laneTime, entryDist, laneTrackDist⟩
      (ps, pitStates ++ [(v.id, ps)], sd.2)

/-- The in-lane movement of one pit tick: phase (driving in / stopped /
driving out), map position along the pit path with wrap, line-crossing
bookkeeping, odometer, lap time.  `ps` is the already-decremented pit
record. -/
def pitMovement (track : Track) (state : RaceState) (v : VehicleState)
    (ps : PitProgress) (dt : ℚ) : VehicleState × RaceState :=
  let speedLimit := (track.pitLane.map (fun pl => pl.speedLimit)).getD (222/10)
  let timeElapsed := ps.totalDuration - ps.timeLeft
  let stopStart := ps.laneTime / 2
  let stopEnd := stopStart + ps.stopDuration
  let pr : ℚ × ℚ :=
    if timeElapsed < stopStart then
      ((timeElapsed / ps.laneTime) * ps.laneTrackDist, speedLimit)
    else if timeElapsed < stopEnd then ((1/2) * ps.laneTrackDist, 0)
    else (((timeElapsed - ps.stopDuration) / ps.laneTime) * ps.laneTrackDist, speedLimit)
  let targetPos0 := ps.entryDist + pr.1
  let targetPos :=
    if targetPos0 ≥ track.totalDistance then targetPos0 - track.totalDistance
    else targetPos0
  let oldDist := v.distanceOnLap
  let v1 : VehicleState := { v with distanceOnLap := targetPos, speed := pr.2 }
  let crossed : Bool :=
    decide (oldDist > track.totalDistance * (9/10)
      ∧ targetPos < track.totalDistance * (1/10))
  let v2 : VehicleState :=
    if crossed then
      { v1 with
          lapCount := v1.lapCount + 1,
          lastLapTime := v1.currentLapTime,
          currentLapTime := 0,
          tyreAgeLaps := v1.tyreAgeLaps + 1 }
    else v1
  let state1 :=
    if crossed && decide (v.position = 1) then { state with currentLap := v2.lapCount }
    else state
  let v3 : VehicleState :=
    if v2.speed > 0 then { v2 with totalDistance := v2.totalDistance + v2.speed * dt }
    else v2
  ({ v3 with currentLapTime := v3.currentLapTime + dt }, state1)

/-- The release servicing (`if (pitState.timeLeft <= 0)`): snap to the pit
exit, clear the pit flags, bump the stop count, fit the new compound,
advance the plan, reset wear/age, repair damage. -/
def pitReleaseService (track : Track) (state1 : RaceState) (v4 : VehicleState) :
    VehicleState :=
  let v5 :=
    match track.pitLane with
    | some pl => { v4 with distanceOnLap := pl.exitDistance }
    | Option.none => v4
  { v5 with
      isInPit := false,
      boxThisLap := false,
      pitStopCount := v5.pitStopCount + 1,
      tyreCompound := StrategySystem.getPitCompound v5 state1 track.totalLaps,
      strategyPlan :=
        { v5.strategyPlan with
            currentStintIndex := v5.strategyPlan.currentStintIndex + 1 },
      tyreWear := 0,
      tyreAgeLaps := 0,
      damage := 0 }

/-- `handlePitStopLogic`: the pit-stop state machine of one vehicle —
lazily initializes the pit record, decrements its timer, advances the car
along the pit path, and on expiry releases and services the car. -/
def handlePitStopLogic (track : Track) (state : RaceState) (v : VehicleState)
    (pitStates : List (String × PitProgress)) (rng : SeededRNG) (dt : ℚ) :
    VehicleState × RaceState × List (String × PitProgress) × SeededRNG :=
  if !v.isInPit then (v, state, pitStates, rng)
  else
    let ensured := pitEnsure track v pitStates rng
    let ps := { ensured.1 with timeLeft := ensured.1.timeLeft - dt }
    let pitStates2 := setPitState ensured.2.1 v.id ps
    let mv := pitMovement track state v ps dt
    if ps.timeLeft ≤ 0 then
      (pitReleaseService track mv.2 mv.1, mv.2, removePitState pitStates2 v.id,
       ensured.2.2)
    else (mv.1, mv.2, pitStates2, ensured.2.2)

/-- `updateDRS`: gating on lap ≥ 3, dry weather, green flag; inside a zone
the flag is granted to a non-leader within 1 s — note that inside a zone,
when the grant condition fails, the previous value is *retained*. -/
def updateDRS (track : Track) (state : RaceState) (v : VehicleState) : VehicleState :=
  if state.currentLap < 3 ∨ state.weather ≠ WeatherCondition.dry
      ∨ state.safetyCar ≠ SafetyCarStatus.none then
    { v with drsOpen := false }
  else
    let inZone := track.drsZones.any (fun z =>
      decide (v.distanceOnLap ≥ z.activationDistance ∧ v.distanceOnLap ≤ z.endDistance))
    if inZone then
      if v.position > 1 ∧ v.gapToAhead < 1 then { v with drsOpen := true } else v
    else { v with drsOpen := false }

/-- The "overtake score" of `attemptOvertake` (skill, speed, DRS, tyre age,
track difficulty). -/
def overtakeScore (track : Track) (attackerDriver defenderDriver : Driver)
    (attacker defender : VehicleState) : ℚ :=
  let skillDelta := attackerDriver.skill.racecraft - defenderDriver.skill.racecraft
  let speedDelta := attacker.speed - defender.speed
  let drsBonus : ℚ := if attacker.drsOpen then 30 else 0
  let tyreDelta : ℚ := (defender.tyreAgeLaps : ℚ) - (attacker.tyreAgeLaps : ℚ)
  let overtakingDiff := jsOr track.overtakingDifficulty (1/2)
  let difficultyPenalty := overtakingDiff * 20
  20 + skillDelta * (1/2) + speedDelta * 2 + drsBonus + tyreDelta * (3/2) - difficultyPenalty

/-- The clamped per-second success probability derived from the score. -/
def overtakeSuccessProb (track : Track) (attackerDriver defenderDriver : Driver)
    (attacker defender : VehicleState) : ℚ :=
  let probPerSecond :=
    2/10 + (overtakeScore track attackerDriver defenderDriver attacker defender / 100) * (1/2)
  max (1/20) (min (95/100) probPerSecond)

/-- `attemptOvertake`: fires only for a battling non-leader within 0.2 s of
the car ahead; 30 % of ticks replace the computed probability by a coin
flip; the per-frame probability is `p·0.1`; success surges the attacker by
5 m/s and clears `isBattling`, failure checks the attacker up (×0.95) with
probability 0.1. -/
def attemptOvertake (track : Track) (drivers : List Driver)
    (vehiclesLive : List VehicleState) (attacker : VehicleState) (rng : SeededRNG) :
    VehicleState × SeededRNG :=
  if !attacker.isBattling ∨ attacker.position = 1 then (attacker, rng)
  else
    match vehiclesLive.find? (fun v2 => v2.position = attacker.position - 1) with
    | Option.none => (attacker, rng)
    | some defender =>
        match findDriver drivers attacker.driverId, findDriver drivers defender.driverId with
        | some ad, some dd =>
            if attacker.gapToAhead > 2/10 then (attacker, rng)
            else
              let base := overtakeSuccessProb track ad dd attacker defender
              let cn := rng.chance (3/10)
              let successProb := if cn.1 then (1/2 : ℚ) else base
              let frameProb := successProb * (1/10)
              let cp := cn.2.chance frameProb
              if cp.1 then
                ({ attacker with speed := attacker.speed + 5, isBattling := false }, cp.2)
              else
                let cc := cp.2.chance (1/10)
                if cc.1 then ({ attacker with speed := attacker.speed * (95/100) }, cc.2)
                else (attacker, cc.2)
        | _, _ => (attacker, rng)

/-- The leaderboard comparator of `updatePositions`:
`(lapCount desc, distanceOnLap desc)`, stable on full ties. -/
def posLe (a b : VehicleState) : Bool :=
  if a.lapCount ≠ b.lapCount then decide (b.lapCount < a.lapCount)
  else decide (b.distanceOnLap ≤ a.distanceOnLap)

/-- Position assignment, morale/concentration impact of position changes,
and gap computation for one enumerated entry of the sorted leaderboard
(the body of the `forEach` of `updatePositions`). -/
def assignOne (track : Track) (sorted : List VehicleState)
    (p : ℕ × VehicleState) : VehicleState :=
  let i := p.1
    let v := p.2
    let v1 := { v with lastPosition := v.position, position := i + 1 }
    let v2 :=
      if v1.position < v1.lastPosition then
        { v1 with
            morale := min 100 (v1.morale + 10),
            concentration := max 0 (v1.concentration - 5) }
      else if v1.position > v1.lastPosition then
        { v1 with
            morale := max 0 (v1.morale - 10),
            concentration := max 0 (v1.concentration - 10) }
      else v1
    if i = 0 then { v2 with gapToLeader := 0, gapToAhead := 0 }
    else
      match sorted.get? (i - 1), sorted.head? with
      | some ahead, some leader =>
          let raceDist := (v2.lapCount : ℚ) * track.totalDistance + v2.distanceOnLap
          let raceDistAhead :=
            (ahead.lapCount : ℚ) * track.totalDistance + ahead.distanceOnLap
          let speed := max v2.speed 20
          let raceDistLeader :=
            (leader.lapCount : ℚ) * track.totalDistance + leader.distanceOnLap
          { v2 with
              gapToAhead := (raceDistAhead - raceDist) / speed,
              gapToLeader := (raceDistLeader - raceDist) / speed }
      | _, _ => v2

/-- The whole position/gap pass over the sorted leaderboard. -/
def assignPositionsAndGaps (track : Track) (sorted : List VehicleState) :
    List VehicleState :=
  sorted.enum.map (assignOne track sorted)

/-- `updatePositions`: stable sort by `(lapCount desc, distanceOnLap desc)`,
then positions = 1 + index, with gap and morale bookkeeping. -/
def updatePositions (track : Track) (state : RaceState) : RaceState :=
  { state with
      vehicles := assignPositionsAndGaps track (state.vehicles.mergeSort posLe) }

/-- `updateMoraleAndConcentration`. -/
def updateMoraleAndConcentration (state : RaceState) (dt : ℚ) : RaceState :=
  { state with vehicles := state.vehicles.map (fun v =>
      let m0 := v.morale + (80 - v.morale) * (1/100) * dt
      let m1 := if v.inDirtyAir then m0 - (1/2) * dt else m0
      let m2 := if v.gapToAhead < 1/2 ∧ v.position > 1 then m1 + (2/10) * dt else m1
      let morale := max 0 (min 100 m2)
      let rr0 : ℚ := 5 * dt
      let rr1 := if state.currentLap = 1 ∧ v.currentSector = 1 then (-10 : ℚ) * dt else rr0
      let rr2 := if v.isBattling then rr1 - 2 * dt else rr1
      let rr3 := if v.inDirtyAir then rr2 - 1 * dt else rr2
      let conc := max 0 (min 100 (v.concentration + rr3))
      { v with morale := morale, concentration := conc }) }

/-- Comparator of the spatial pass: physical position on track
(`distanceOnLap` descending), lap-agnostic. -/
def spatialLe (a b : VehicleState) : Bool :=
  decide (b.distanceOnLap ≤ a.distanceOnLap)

/-- The flag triple `(inDirtyAir, isBattling, blueFlag)` computed for each
car of the location-sorted copy (the strip is treated as circular). -/
def spatialFlags (track : Track) (sorted : List VehicleState) :
    List (String × Bool × Bool × Bool) :=
  sorted.enum.map (fun p =>
    let i := p.1
    let v := p.2
    let n := sorted.length
    let ahead :=
      if i = 0 then (sorted.getLast?).getD v else (sorted.get? (i - 1)).getD v
    let physicalDistGap :=
      if i = 0 then (track.totalDistance - v.distanceOnLap) + ahead.distanceOnLap
      else ahead.distanceOnLap - v.distanceOnLap
    let physicalTimeGap := physicalDistGap / max 10 v.speed
    let dirty : Bool := decide (physicalTimeGap < 3/2)
    let battling : Bool := decide (physicalTimeGap < 4/10)
    let behind :=
      if i = n - 1 then (sorted.head?).getD v else (sorted.get? (i + 1)).getD v
    let gapFromBehind :=
      if i = n - 1 then (track.totalDistance - behind.distanceOnLap) + v.distanceOnLap
      else v.distanceOnLap - behind.distanceOnLap
    let gapTimeFromBehind := gapFromBehind / max 10 behind.speed
    let blue : Bool := decide (gapTimeFromBehind < 12/10 ∧ behind.lapCount > v.lapCount)
    (v.id, dirty, battling, blue))

/-- `updateSpatialAwareness`: flags computed over a location-sorted *copy*
and written back onto the vehicles (identified by id). -/
def updateSpatialAwareness (track : Track) (state : RaceState) : RaceState :=
  let flags := spatialFlags track (state.vehicles.mergeSort spatialLe)
  { state with vehicles := state.vehicles.map (fun v =>
      match flags.find? (fun f => f.1 = v.id) with
      | some f => { v with inDirtyAir := f.2.1, isBattling := f.2.2.1, blueFlag := f.2.2.2 }
      | Option.none => v) }

/-- `checkRaceFinish`: checkered flag on the leader completing the race
distance; `finished` status once every active car has finished. -/
def checkRaceFinish (state : RaceState) : RaceState :=
  let st1 :=
    if !state.checkeredFlag then
      match state.vehicles.find? (fun v => v.position = 1) with
      | some leader =>
          if leader.lapCount ≥ state.totalLaps then
            { state with
                checkeredFlag := true,
                winnerId := some leader.driverId,
                vehicles := updateFirst (fun v => v.position = 1)
                  (fun v => { v with hasFinished := true }) state.vehicles }
          else state
      | Option.none => state
    else state
  let actives := st1.vehicles.filter (fun v => decide (v.damage < 100))
  if st1.checkeredFlag ∧ actives.all (fun v => v.hasFinished) then
    { st1 with status := RaceStatus.finished }
  else st1

/-- Accumulator of the per-vehicle loop of `updateRaceLogic`. -/
structure Ctx where
  state : RaceState
  pitStates : List (String × PitProgress)
  rng : SeededRNG

/-- One iteration of the per-vehicle loop: pit machine, DRS gate, overtake
attempt (the latter reads the live, partially updated vehicle array). -/
def vehicleStep (track : Track) (drivers : List Driver) (dt : ℚ)
    (c : Ctx) (v : VehicleState) (live : List VehicleState) : VehicleState × Ctx :=
  let hp := handlePitStopLogic track c.state v c.pitStates c.rng dt
  let v1 := hp.1
  let v2 := updateDRS track hp.2.1 v1
  let ao := attemptOvertake track drivers live v2 hp.2.2.2
  (ao.1, ⟨hp.2.1, hp.2.2.1, ao.2⟩)

/-- `updateRaceLogic(state, track, drivers, dt, strategySystem)`: safety
car, incidents, the per-vehicle pass, positions, morale, spatial
awareness, finish detection — in source order. -/
def updateRaceLogic (track : Track) (drivers : List Driver) (state : RaceState)
    (pitStates : List (String × PitProgress)) (scTimer : ℚ) (rng : SeededRNG)
    (dt : ℚ) : RaceState × List (String × PitProgress) × ℚ × SeededRNG :=
  let sc := updateSafetyCar track state scTimer dt
  let ci := checkIncidents track drivers sc.1 sc.2 rng dt
  let st1 := ci.1
  let pass := vehicleFold (vehicleStep track drivers dt) [] st1.vehicles
    ⟨st1, pitStates, ci.2.2⟩
  let st2 := { pass.2.state with vehicles := pass.1 }
  let st3 := updatePositions track st2
  let st4 := updateMoraleAndConcentration st3 dt
  let st5 := updateSpatialAwareness track st4
  let st6 := checkRaceFinish st5
  (st6, pass.2.pitStates, ci.2.1, pass.2.rng)

end RaceLogicSystem

/-! ### PhysicsSystem — the consolidated version (TyreModel-based
resources, G-force acceleration model, safety-car speed regimes). -/

namespace PhysicsSystem

/-- `calculateMaxAcceleration(speed, drsOpen, gapToAhead, sectorType)`:
engine power over speed (capped below 10 m/s), clipped by the traction
limit, minus aerodynamic drag (CdA reduced by DRS and slipstream on
straights) and rolling resistance.  May be negative (drag-limited). -/
def calculateMaxAcceleration (speed : ℚ) (drsOpen : Bool) (gapToAhead : ℚ)
    (sectorType : SectorType) : ℚ :=
  let mass : ℚ := 800
  let powerWatts : ℚ := 750000
  let thrustForce0 := if speed < 10 then powerWatts / 10 else powerWatts / speed
  let tractionLimitForce := mass * (981/100) * (13/10)
  let thrustForce := min thrustForce0 tractionLimitForce
  let rho : ℚ := 1225/1000
  let cda0 : ℚ := 16/10
  let cda1 := if drsOpen then cda0 * (3/4) else cda0
  let cda2 :=
    if sectorType = SectorType.straight ∧ gapToAhead < 1 then
      let maxSlipstream : ℚ := if drsOpen then 8/100 else 15/100
      let slipstreamFactor := max 0 (1 - gapToAhead)
      cda1 * (1 - maxSlipstream * slipstreamFactor)
    else cda1
  let dragForce := (1/2) * rho * cda2 * speed * speed
  let netForce := thrustForce - dragForce
  netForce / mass - 1/10

/-- `calculateMaxBraking(speed)`: mechanical grip plus aero downforce
growing with the square of speed. -/
def calculateMaxBraking (speed : ℚ) : ℚ :=
  15 + (5/1000) * speed * speed

/-- `calculateGrip(compound, waterDepth, speedKph)`: compound-specific
water response (exponential decay for slicks, bell curve for
intermediates, plateau for wets) and aquaplaning above 1 mm, floored at
0.1.  (The call site passes the vehicle speed in m/s for the `speedKph`
parameter, faithfully reproduced.) -/
def calculateGrip (js : JsMath) (compound : TyreCompound) (waterDepth : ℚ)
    (speedKph : ℚ) : ℚ :=
  let baseGrip0 : ℚ :=
    match compound with
    | TyreCompound.soft | TyreCompound.medium | TyreCompound.hard =>
        js.exp (-2 * waterDepth)
    | TyreCompound.intermediate =>
        let optimal : ℚ := 3/2
        let width : ℚ := 3/2
        let g := (95/100) * js.exp (-((waterDepth - optimal) ^ 2) / (2 * width * width))
        if waterDepth < 2/10 then g * (85/100) else g
    | TyreCompound.wet =>
        if waterDepth < 1 then 7/10 + waterDepth * (2/10)
        else 9/10 - (waterDepth - 1) * (3/100)
  let baseGrip1 :=
    if waterDepth > 1 then
      let hydroSpeed := 90 + 100 / waterDepth
      if speedKph > hydroSpeed then
        baseGrip0 * js.exp (-(speedKph - hydroSpeed) * (5/100))
      else baseGrip0
    else baseGrip0
  max (1/10) baseGrip1

/-- `calculateTargetSpeed(vehicle, driver, state, track)`: the product of
all pace factors, the battling blend, the blue-flag penalty, the per-tick
consistency noise draw, and the safety-car speed regimes.  Returns the
target speed together with the advanced RNG.  `vehiclesLive` is the live
`state.vehicles` array (for the battling car-ahead lookup). -/
def calculateTargetSpeed (js : JsMath) (track : Track) (driver : Driver)
    (state : RaceState) (vehiclesLive : List VehicleState) (v : VehicleState)
    (rng : SeededRNG) : ℚ × SeededRNG :=
  if state.safetyCar = SafetyCarStatus.redFlag then (0, rng)
  else
    let currentSector := track.sectors.get? (v.currentSector - 1)
    let speed0 : ℚ :=
      match currentSector with
      | some sec =>
          match sec.maxSpeed with
          | some ms => if ms = 0 then
              (match sec.type with
               | SectorType.straight => 105
               | SectorType.cornerHighSpeed => 72
               | SectorType.cornerMediumSpeed => 50
               | SectorType.cornerLowSpeed => 25)
            else ms
          | Option.none =>
              match sec.type with
              | SectorType.straight => 105
              | SectorType.cornerHighSpeed => 72
              | SectorType.cornerMediumSpeed => 50
              | SectorType.cornerLowSpeed => 25
      | Option.none => track.totalDistance / driver.basePace
    let speed1 :=
      match currentSector with
      | some sec =>
          if state.safetyCar = SafetyCarStatus.none then
            let perfScore :=
              match sec.type with
              | SectorType.straight => driver.performance.straight
              | SectorType.cornerHighSpeed => driver.performance.corneringHigh
              | SectorType.cornerMediumSpeed => driver.performance.corneringMedium
              | SectorType.cornerLowSpeed => driver.performance.corneringLow
            speed0 * (1 + (perfScore - 90) * (5/10000))
          else speed0
      | Option.none => speed0
    let speed2 := speed1 * (1 + (88 - driver.basePace) * (8/10000))
    let speed3 := speed2 * (1 + (v.morale - 80) * (5/10000))
    let speed4 := speed3 * v.condition
    let currentTemp :=
      jsOr state.trackTemp (jsOr track.baseTemperature 25 - state.rainIntensityLevel * (15/100))
    let tempDelta := |currentTemp - 25|
    let adaptability := jsOr driver.performance.temperatureAdaptability 85
    let tempPenalty := tempDelta * (5/1000) * (1 - adaptability / 100)
    let speed5 := speed4 * (1 - tempPenalty)
    let difficulty := jsOr track.trackDifficulty (1/2)
    let consistency0 := jsOr driver.skill.consistency 80
    let difficultyPenalty := difficulty * (8/100) * (1 - consistency0 / 100)
    let speed6 := speed5 * (1 - difficultyPenalty)
    let speed7 := speed6 * TyreModel.getGripFactor v.tyreCompound v.tyreWear 0
    let speed8 := speed7 * (1 - (v.fuelLoad / 100) * (33/1000))
    let speed9 :=
      match v.paceMode with
      | PaceMode.aggressive => speed8 * (1015/1000)
      | PaceMode.conservative => speed8 * (985/1000)
      | PaceMode.balanced => speed8
    let speed10 :=
      match v.ersMode with
      | ERSMode.deploy => speed9 * (102/100)
      | ERSMode.harvest => speed9 * (98/100)
      | ERSMode.balanced => speed9
    let speed11 := if v.drsOpen then speed10 * (105/100) else speed10
    let speed12 :=
      match currentSector with
      | some sec =>
          if v.position > 1 ∧ state.currentLap > 1 then
            let gap := max (1/10) v.gapToAhead
            if sec.type = SectorType.straight then
              (if gap < 3/2 then
                 speed11 * (1 + (5/100) * max 0 (1 - gap / (3/2)))
               else speed11)
            else
              (if gap < 2 then
                 let penaltyBase : ℚ :=
                   match sec.type with
                   | SectorType.cornerHighSpeed => 5/100
                   | SectorType.cornerMediumSpeed => 3/100
                   | SectorType.cornerLowSpeed => 1/100
                   | SectorType.straight => 0
                 speed11 * (1 - penaltyBase * max 0 (1 - gap / 2))
               else speed11)
          else speed11
      | Option.none => speed11
    let speed13 :=
      if v.isBattling ∧ state.safetyCar = SafetyCarStatus.none then
        match vehiclesLive.find? (fun u => u.position = v.position - 1) with
        | some ahead =>
            let paceDelta := v.speed - ahead.speed
            let aggression := driver.personality.aggression / 100
            let racecraft := driver.skill.racecraft / 100
            let z := paceDelta + aggression * (5/2) + racecraft * (3/2) - 3
            let attackIntensity := 1 / (1 + js.exp (-z))
            let stuckSpeed :=
              if v.speed > ahead.speed then ahead.speed * (98/100) else ahead.speed
            let freeSpeed :=
              match currentSector with
              | some sec =>
                  if sec.type ≠ SectorType.straight then
                    speed12 * (1 - (5/100) * attackIntensity)
                  else speed12
              | Option.none => speed12
            if freeSpeed > stuckSpeed then
              stuckSpeed * (1 - attackIntensity) + freeSpeed * attackIntensity
            else freeSpeed
        | Option.none => speed12
      else speed12
    let speed14 :=
      if v.blueFlag then
        let yieldChance :=
          (driver.personality.teamPlayer + (100 - driver.personality.aggression)) / 200
        speed13 * (1 - (2/10) * yieldChance)
      else speed13
    let consistencyFactor := driver.skill.consistency / 100
    let vr0 := (5/100) * (1 - consistencyFactor + 3/10)
    let vr1 :=
      match currentSector with
      | some sec => if sec.type = SectorType.cornerLowSpeed then vr0 * 3 else vr0
      | Option.none => vr0
    let vr2 := if state.safetyCar ≠ SafetyCarStatus.none then vr1 * (1/10) else vr1
    let nz := rng.range (-vr2) vr2
    let speed15 := speed14 * (1 + nz.1)
    let speed16 :=
      if state.safetyCar = SafetyCarStatus.vsc then
        min (speed15 * (7/10)) 44
      else if state.safetyCar = SafetyCarStatus.sc then
        let scPace : ℚ := 35
        let scTarget :=
          if v.position ≠ 1 then
            let currentGap := v.gapToAhead
            if currentGap > 1/2 then
              let catchupRatio := min currentGap 5 / 5
              scPace * (1 + (6/10) * catchupRatio)
            else if currentGap < 3/10 then scPace * (8/10)
            else scPace
          else scPace
        min speed15 scTarget
      else speed15
    (speed16, nz.2)

/-- `updateResources(vehicle, dt, track)`: TyreModel wear, fuel burn, ERS
flows, with clamps (ERS forced to `balanced` when it empties). -/
def updateResources (track : Track) (v : VehicleState) (dt : ℚ) : VehicleState :=
  let wearRate := TyreModel.getWearRate v.tyreCompound track v.paceMode v.tyreWear
  let wear0 := v.tyreWear + wearRate * dt
  let wear := if wear0 > 100 then 100 else wear0
  let burnRate0 : ℚ := 16/1000
  let burnRate :=
    match v.paceMode with
    | PaceMode.aggressive => burnRate0 * (12/10)
    | PaceMode.conservative => burnRate0 * (8/10)
    | PaceMode.balanced => burnRate0
  let fuel0 := v.fuelLoad - burnRate * dt
  let fuel := if fuel0 < 0 then 0 else fuel0
  let ers0 :=
    match v.ersMode with
    | ERSMode.deploy => v.ersLevel - 2 * dt
    | ERSMode.harvest => v.ersLevel + (3/2) * dt
    | ERSMode.balanced => v.ersLevel + (1/10) * dt
  let ersPair : ℚ × ERSMode :=
    if ers0 < 0 then (0, ERSMode.balanced) else (ers0, v.ersMode)
  let ers := if ersPair.1 > 100 then 100 else ersPair.1
  { v with tyreWear := wear, fuelLoad := fuel, ersLevel := ers, ersMode := ersPair.2 }

/-- The longitudinal motion integration of `updateVehiclePhysics`: commit
the new speed and advance the odometers and lap clock. -/
def integrateMotion (v : VehicleState) (sp2 : ℚ) (dt : ℚ) : VehicleState :=
  let distDelta := sp2 * dt
  { v with
      speed := sp2,
      distanceOnLap := v.distanceOnLap + distDelta,
      totalDistance := v.totalDistance + distDelta,
      currentLapTime := v.currentLapTime + dt }

/-- The speed-trace sampling of `updateVehiclePhysics` (a point every
50 m). -/
def telemetrySample (v1 : VehicleState) : VehicleState :=
  let trace := v1.telemetry.currentLapSpeedTrace
  let push :=
    match trace.getLast? with
    | some lastPoint => decide (v1.distanceOnLap - lastPoint.distance > 50)
    | Option.none => true
  if push then
    { v1 with telemetry :=
        { v1.telemetry with currentLapSpeedTrace :=
            trace ++ [⟨v1.distanceOnLap, v1.speed⟩] } }
  else v1

/-- The pit-entry detection of `updateVehiclePhysics`: a car intending to
box enters the lane within 50 m past the entry line. -/
def pitEntryCheck (track : Track) (v2 : VehicleState) : VehicleState :=
  if v2.boxThisLap then
    match track.pitLane with
    | some pl =>
        if v2.distanceOnLap ≥ pl.entryDistance
            ∧ v2.distanceOnLap < pl.entryDistance + 50 then
          { v2 with isInPit := true }
        else v2
    | Option.none => v2
  else v2

/-- The start/finish-line logic of `updateVehiclePhysics`: lap count, lap
times, tyre age, telemetry rollover, checkered-flag finish, and the
leader advancing `state.currentLap`. -/
def lapCrossing (track : Track) (state : RaceState) (v3 : VehicleState) :
    VehicleState × RaceState :=
  if v3.distanceOnLap ≥ track.totalDistance then
    let w0 : VehicleState := { v3 with
        distanceOnLap := v3.distanceOnLap - track.totalDistance,
        lapCount := v3.lapCount + 1 }
    let w1 : VehicleState :=
      if state.checkeredFlag ∧ !w0.hasFinished then { w0 with hasFinished := true }
      else w0
    let w2 : VehicleState := { w1 with
        lastLapTime := w1.currentLapTime,
        currentLapTime := 0,
        tyreAgeLaps := w1.tyreAgeLaps + 1,
        telemetry :=
          { lastLapSpeedTrace := w1.telemetry.currentLapSpeedTrace,
            currentLapSpeedTrace := [] } }
    let w3 : VehicleState :=
      if w2.lastLapTime < w2.bestLapTime ∨ w2.bestLapTime = 0 then
        { w2 with bestLapTime := w2.lastLapTime }
      else w2
    let st1 :=
      if w3.position = 1 then { state with currentLap := w3.lapCount } else state
    (w3, st1)
  else (v3, state)

/-- The sector detection of `updateVehiclePhysics`. -/
def sectorDetect (track : Track) (v4 : VehicleState) : VehicleState :=
  match track.sectors.findIdx? (fun s =>
      decide (v4.distanceOnLap ≥ s.startDistance ∧ v4.distanceOnLap < s.endDistance)) with
  | some idx => { v4 with currentSector := idx + 1 }
  | Option.none => v4

/-- `updateVehiclePhysics(vehicle, driver, state, track, dt)`: grip, target
speed, start-lap chaos, longitudinal integration with clamps, motion and
lap logic, telemetry sampling, pit-entry detection, sector detection,
resource consumption.  Returns the updated vehicle, the race state (whose
`currentLap` the leader may advance), and the RNG. -/
def updateVehiclePhysics (js : JsMath) (track : Track) (driver : Driver)
    (state : RaceState) (vehiclesLive : List VehicleState) (v : VehicleState)
    (rng : SeededRNG) (dt : ℚ) : VehicleState × RaceState × SeededRNG :=
  if v.isInPit then (v, state, rng)
  else
    let sectorId := (track.sectors.get? (v.currentSector - 1)).map (fun s => s.id)
    let waterDepth :=
      match sectorId with
      | some sid =>
          match state.sectorConditions.find? (fun c => c.sectorId = sid) with
          | some c => c.waterDepth
          | Option.none => 0
      | Option.none => 0
    let gripFactor := calculateGrip js v.tyreCompound waterDepth v.speed
    let ts := calculateTargetSpeed js track driver state vehiclesLive v rng
    let target0 := ts.1 * gripFactor
    let chaosStep : ℚ × SeededRNG :=
      if state.currentLap = 1 ∧ v.distanceOnLap < 2000 then
        let instability := 2/100 + ((100 - v.concentration) / 100) * (1/10)
        let ch := ts.2.range (1 - instability) (1 + instability)
        let checkUpChance : ℚ := if v.concentration < 50 then 5/100 else 1/100
        if v.position > 1 ∧ v.gapToAhead < 4/10 then
          let cu := ch.2.chance checkUpChance
          if cu.1 then (target0 * (9/10), cu.2) else (target0 * ch.1, cu.2)
        else (target0 * ch.1, ch.2)
      else (target0, ts.2)
    let targetSpeed := chaosStep.1
    let rng1 := chaosStep.2
    let effectiveGap : ℚ := if v.position = 1 then 100 else v.gapToAhead
    let sectorType :=
      ((track.sectors.get? (v.currentSector - 1)).map (fun s => s.type)).getD
        SectorType.straight
    let accelRate := calculateMaxAcceleration v.speed v.drsOpen effectiveGap sectorType
      * gripFactor
    let brakeRate := max 1 (calculateMaxBraking v.speed * gripFactor)
    let sp0 :=
      if v.speed < targetSpeed then
        let s := v.speed + accelRate * dt
        if s > targetSpeed then targetSpeed else s
      else
        let s := v.speed - brakeRate * dt
        if s < targetSpeed then targetSpeed else s
    let sp1 := if sp0 > 150 then (150 : ℚ) else sp0
    let sp2 := if sp1 < 0 then (0 : ℚ) else sp1
    let v1 := integrateMotion v sp2 dt
    let v2 := telemetrySample v1
    let v3 := pitEntryCheck track v2
    let lapStep := lapCrossing track state v3
    let v4 := lapStep.1
    let st2 := lapStep.2
    let v5 := sectorDetect track v4
    (updateResources track v5 dt, st2, rng1)

end PhysicsSystem

/-! ### Race initialization — `RaceLogicSystem.initializeRace` -/

namespace RaceLogicSystem

/-- The qualifying simulation: per driver (input order) one `range(-0.4, 0.4)`
draw on top of base pace and the consistency penalty. -/
def qualifyingGo (rng : SeededRNG) : List Driver → List (Driver × ℚ) × SeededRNG
  | [] => ([], rng)
  | d :: rest =>
      let consistencyPenalty := (100 - d.skill.consistency) * (5/1000)
      let r := rng.range (-(4/10)) (4/10)
      let lapTime := d.basePace + consistencyPenalty + r.1
      let tl := qualifyingGo r.2 rest
      ((d, lapTime) :: tl.1, tl.2)

/-- Grid order: ascending qualifying lap time (stable). -/
def qualifyingLe (a b : Driver × ℚ) : Bool := decide (a.2 ≤ b.2)

/-- Per-grid-slot vehicle construction: grid-position noise, day-form
condition (both on the seeded RNG), then the strategy plan (unseeded
`Math.random()`); the opening compound is the plan's first stint. -/
def buildVehiclesGo (track : Track) (initialRain : ℚ) (i : ℕ) (rng : SeededRNG)
    (m : MathRandom) : List (Driver × ℚ) → List VehicleState × SeededRNG × MathRandom
  | [] => ([], rng, m)
  | q :: rest =>
      let driver := q.1
      let noise := rng.range (-1) 1
      let startDistance := track.totalDistance - ((i : ℚ) + 1) * 16 + noise.1
      let cond := noise.2.range (99/100) (101/100)
      let sp := StrategySystem.initStrategyPlan driver track track.totalLaps
        (initialRain / 100) m
      let plan := sp.1
      let compound := ((plan.stints.head?).map (fun s => s.compound)).getD
        TyreCompound.soft   -- the plan always has at least one stint
      let veh : VehicleState :=
        { id := driver.id, driverId := driver.id,
          distanceOnLap := startDistance,
          totalDistance := startDistance - track.totalDistance,
          speed := 0, acceleration := 0, lapCount := 0, currentSector := 3,
          isInPit := false, pitStopCount := 0, boxThisLap := false,
          tyreCompound := compound, tyreWear := 0, tyreAgeLaps := 0,
          fuelLoad := 100, ersLevel := 100,
          ersMode := ERSMode.balanced, paceMode := PaceMode.balanced,
          condition := cond.1, damage := 0, stress := 0,
          morale := jsOr driver.morale 80, concentration := 100,
          drsOpen := false, inDirtyAir := false, isBattling := false,
          blueFlag := false,
          currentLapTime := 0, lastLapTime := 0, bestLapTime := 0,
          gapToLeader := 0, gapToAhead := 0,
          position := i + 1, lastPosition := i + 1, hasFinished := false,
          strategyPlan := plan,
          telemetry := ⟨[], []⟩ }
      let tl := buildVehiclesGo track initialRain (i + 1) cond.2 sp.2 rest
      (veh :: tl.1, tl.2)

/-- `initializeRace(track, drivers, strategySystem)` (shortened to
`initRace` here): initial weather draw, qualifying grid, per-vehicle
construction, initial sector conditions, and the race-state literal —
whose `id` embeds the wall clock (`Date.now()`, the `clock` argument). -/
def initRace (track : Track) (drivers : List Driver) (clock : ℕ)
    (rng : SeededRNG) (m : MathRandom) : RaceState × SeededRNG × MathRandom :=
  let baseRainProb := (track.weatherParams.map (fun w => w.rainProbability)).getD (2/10)
  let c0 := rng.range 0 100
  let initialCloudCover := c0.1 * (6/10) + baseRainProb * 100 * (4/10)
  let initialRainIntensity :=
    if initialCloudCover > 70 then ((initialCloudCover - 70) / 30) * 100 else 0
  let q := qualifyingGo c0.2 drivers
  let sortedQ := q.1.mergeSort qualifyingLe
  let bv := buildVehiclesGo track initialRainIntensity 0 q.2 m sortedQ
  let ws := bv.2.1.range 5 20
  let wd := ws.2.range 0 360
  ({ id := "race-" ++ toString clock,
     trackId := track.id,
     currentLap := 1,
     totalLaps := track.totalLaps,
     weather := weatherOfRain initialRainIntensity,
     weatherMode := WeatherMode.simulation,
     weatherForecast := [],
     cloudCover := initialCloudCover,
     rainIntensityLevel := initialRainIntensity,
     windSpeed := ws.1,
     windDirection := wd.1,
     trackTemp := 25,
     airTemp := 20,
     rubberLevel := 50,
     sectorConditions := track.sectors.map (fun s => ⟨s.id, 0, 50⟩),
     trackWaterDepth := 0,
     safetyCar := SafetyCarStatus.none,
     vehicles := bv.1,
     status := RaceStatus.preRace,
     checkeredFlag := false,
     winnerId := Option.none,
     elapsedTime := 0 },
   wd.2, bv.2.2)

end RaceLogicSystem

/-! ### SimulationEngine — `src/engine/simulation.ts` -/

/-- The full engine state: the published race state plus the private state
of the sub-systems (pit records, safety-car timer, forecast timer) and the
two randomness threads. -/
structure EngineState where
  race : RaceState
  rng : SeededRNG
  mathRandom : MathRandom
  pitStates : List (String × PitProgress)
  safetyCarTimer : ℚ
  forecastUpdateTimer : ℚ

/-- The channel/value pair of `updateStrategy(driverId, type, value)`. -/
inductive StrategyChannel
  | pace (m : PaceMode)
  | ers (m : ERSMode)
  | other
deriving DecidableEq

namespace SimulationEngine

/-- `new SimulationEngine(track, drivers, seed)`: build the RNG from the
seed, initialize the race (the `clock` argument models `Date.now()`, and
`mstream` the ambient `Math.random()` stream), then populate the
forecast. -/
def init (js : JsMath) (track : Track) (drivers : List Driver) (seed : ℕ)
    (clock : ℕ) (mstream : ℕ → ℚ) : EngineState :=
  let ir := RaceLogicSystem.initRace track drivers clock ⟨seed⟩ ⟨mstream, 0⟩
  let fc := WeatherSystem.initForecast js track ir.1 ir.2.1
  { race := fc.1, rng := fc.2, mathRandom := ir.2.2,
    pitStates := [], safetyCarTimer := 0, forecastUpdateTimer := 0 }

/-- `startRace()`. -/
def startRace (es : EngineState) : EngineState :=
  { es with race := { es.race with status := RaceStatus.racing } }

/-- Accumulator of the per-vehicle strategy + physics pass. -/
structure PassCtx where
  state : RaceState
  rng : SeededRNG
  mathRandom : MathRandom

/-- One iteration of the engine's per-vehicle loop: strategy AI (pit
intent), then physics — skipped while the car is in the pit lane. -/
def strategyPhysicsStep (js : JsMath) (track : Track) (drivers : List Driver)
    (dt : ℚ) (c : PassCtx) (v : VehicleState) (live : List VehicleState) :
    VehicleState × PassCtx :=
  match findDriver drivers v.driverId with
  | Option.none => (v, c)
  | some driver =>
      let sa := StrategySystem.updateStrategyAI driver track c.state v c.mathRandom
      let v1 := sa.1
      if v1.isInPit then (v1, { c with mathRandom := sa.2 })
      else
        let ph := PhysicsSystem.updateVehiclePhysics js track driver c.state live v1
          c.rng dt
        (ph.1, ⟨ph.2.1, ph.2.2, sa.2⟩)

/-- `update(deltaTime)`: a no-op unless racing; otherwise advance
`elapsedTime` and dispatch Weather → RaceLogic → per-vehicle
Strategy/Physics, in source order. -/
def update (js : JsMath) (track : Track) (drivers : List Driver) (dt : ℚ)
    (es : EngineState) : EngineState :=
  if es.race.status ≠ RaceStatus.racing then es
  else
    let st0 := { es.race with elapsedTime := es.race.elapsedTime + dt }
    let w := WeatherSystem.update js track st0 es.forecastUpdateTimer es.rng dt
    let rl := RaceLogicSystem.updateRaceLogic track drivers w.1 es.pitStates
      es.safetyCarTimer w.2.2 dt
    let st2 := rl.1
    let pass := vehicleFold (strategyPhysicsStep js track drivers dt) [] st2.vehicles
      ⟨st2, rl.2.2.2, es.mathRandom⟩
    { race := { pass.2.state with vehicles := pass.1 },
      rng := pass.2.rng,
      mathRandom := pass.2.mathRandom,
      pitStates := rl.2.1,
      safetyCarTimer := rl.2.2.1,
      forecastUpdateTimer := w.2.1 }

/-- `updateStrategy(driverId, type, value)`: look the vehicle up by driver
id (first match); the `pace` channel sets `paceMode`, the `ers` channel
sets `ersMode`; anything else (and a missing vehicle) is a no-op. -/
def updateStrategy (driverId : String) (ch : StrategyChannel) (state : RaceState) :
    RaceState :=
  match state.vehicles.find? (fun v => v.driverId = driverId) with
  | Option.none => state
  | some _ =>
      match ch with
      | StrategyChannel.pace m =>
          let vs := updateFirst (fun v => v.driverId = driverId)
            (fun v => { v with paceMode := m }) state.vehicles
          { state with vehicles := vs }
      | StrategyChannel.ers m =>
          let vs := updateFirst (fun v => v.driverId = driverId)
            (fun v => { v with ersMode := m }) state.vehicles
          { state with vehicles := vs }
      | StrategyChannel.other => state

/-- `setWeatherMode(mode)`. -/
def setWeatherMode (mode : WeatherMode) (state : RaceState) : RaceState :=
  { state with weatherMode := mode }

/-- The trajectory of published snapshots for a given `dt` schedule. -/
def run (js : JsMath) (track : Track) (drivers : List Driver) :
    EngineState → List ℚ → List RaceState
  | _, [] => []
  | es, dt :: rest =>
      let e2 := update js track drivers dt es
      e2.race :: run js track drivers e2 rest

end SimulationEngine

/-! ### Claim-level specifications and projections -/

/-- Modelled from the specification wording of the overtake resolver
(§4.6), with the single amendment the code forces: a zero
`overtakingDifficulty` falls back to 0.5 (the JS `|| 0.5` default).
Written top-down from the claim sentence — guard conjunction first, then
score, clamped per-second probability, the 30 % coin-flip override, the
per-frame scaling, and the success/failure effects — to be compared
against the source-derived `RaceLogicSystem.attemptOvertake`. -/
def overtakeResolverSpec (track : Track) (drivers : List Driver)
    (vehiclesLive : List VehicleState) (attacker : VehicleState) (rng : SeededRNG) :
    VehicleState × SeededRNG :=
  if attacker.isBattling = true ∧ attacker.position ≠ 1 ∧ attacker.gapToAhead ≤ 2/10 then
    match vehiclesLive.find? (fun u => u.position = attacker.position - 1) with
    | some defender =>
        match findDriver drivers attacker.driverId, findDriver drivers defender.driverId with
        | some ad, some dd =>
            let score := 20 + (1/2) * (ad.skill.racecraft - dd.skill.racecraft)
              + 2 * (attacker.speed - defender.speed)
              + (if attacker.drsOpen then (30 : ℚ) else 0)
              + (3/2) * ((defender.tyreAgeLaps : ℚ) - (attacker.tyreAgeLaps : ℚ))
              - 20 * (if track.overtakingDifficulty = 0 then 1/2
                      else track.overtakingDifficulty)
            let perSecond := max (1/20) (min (95/100) (2/10 + (1/2) * score / 100))
            let coin := rng.chance (3/10)
            let p := if coin.1 then (1/2 : ℚ) else perSecond
            let draw := coin.2.chance (p * (1/10))
            if draw.1 then
              ({ attacker with speed := attacker.speed + 5, isBattling := false }, draw.2)
            else
              let checkUp := draw.2.chance (1/10)
              (if checkUp.1 then { attacker with speed := attacker.speed * (95/100) }
               else attacker, checkUp.2)
        | _, _ => (attacker, rng)
    | Option.none => (attacker, rng)
  else (attacker, rng)

/-- The position invariant claimed for every published snapshot (C2): the
`position` fields are a permutation of `1..N`, ordered exactly by the
lexicographic `(lapCount, distanceOnLap)` race order. -/
def positionsConsistent (vs : List VehicleState) : Prop :=
  ((vs.map fun v => v.position : List ℕ) : Multiset ℕ)
      = ((List.range' 1 vs.length : List ℕ) : Multiset ℕ) ∧
  ∀ a ∈ vs, ∀ b ∈ vs,
    (a.position < b.position ↔
      (b.lapCount < a.lapCount ∨
        (b.lapCount = a.lapCount ∧ b.distanceOnLap < a.distanceOnLap)))

/-- The per-vehicle fields whose values an `update(0)` call must preserve
(the integrator/odometer/resource state, as opposed to the derived
leaderboard, proximity, weather and dice-driven fields). -/
def coreProj (v : VehicleState) :
    String × String × ℚ × ℚ × ℕ × ℚ × ℕ × TyreCompound × ℚ × ℕ × ℚ × ℚ ×
      ERSMode × PaceMode × ℚ × ℚ :=
  (v.id, v.driverId, v.distanceOnLap, v.totalDistance, v.lapCount, v.currentLapTime,
   v.pitStopCount, v.tyreCompound, v.tyreWear, v.tyreAgeLaps, v.fuelLoad, v.ersLevel,
   v.ersMode, v.paceMode, v.damage, v.condition)

/-- `coreProj` together with the pit-lane flag: the race-logic pass also
preserves `isInPit` for a car outside the pit lane, which is what licenses
skipping the pit machine and running physics for it downstream. -/
def coreProjP (v : VehicleState) := (coreProj v, v.isInPit)

/-- The per-vehicle hypotheses under which `update(0)` preserves the core
state of a car: not in the pit lane, resource levels inside their clamp
ranges, and not parked exactly on the finishing line. -/
def coreHyp (track : Track) (v : VehicleState) : Prop :=
  v.isInPit = false ∧ v.tyreWear ≤ 100 ∧ 0 ≤ v.fuelLoad ∧ 0 ≤ v.ersLevel
    ∧ v.ersLevel ≤ 100 ∧ v.distanceOnLap < track.totalDistance

/-- The identity/wear pair tracked by the wear-monotonicity claim. -/
def wearProj (v : VehicleState) : String × ℚ := (v.id, v.tyreWear)

/-- "No pit release completes for this vehicle in this tick": whatever pit
record the engine holds for it still has time left beyond `dt`.  (A record
created this very tick cannot expire within it either, because the lane
time is floored at 5 s.) -/
def noPitRelease (es : EngineState) (dt : ℚ) (v : VehicleState) : Prop :=
  ∀ pr : String × PitProgress,
    es.pitStates.find? (fun p => p.1 = v.id) = some pr → dt < pr.2.timeLeft

/-! ### Concrete fixtures for witnesses and counterexamples -/

/-- Oracle fixture: `exp` is only ever evaluated at 0 on these runs
(no standing water, no battling blend), where `exp 0 = 1`; `sin` values
only shape forecast nodes. -/
def js1 : JsMath := ⟨fun _ => 1, fun _ => 0⟩

def mhalf : ℕ → ℚ := fun _ => 1/2

def mzero : ℕ → ℚ := fun _ => 0

def sector1 : TrackSector :=
  ⟨"s1", 0, 5000, SectorType.straight, 1/2, Option.none⟩

def trackA : Track :=
  { id := "t", totalDistance := 5000, totalLaps := 30,
    tireDegradationFactor := 1, overtakingDifficulty := 3/10,
    trackDifficulty := 1/2, baseTemperature := 25,
    weatherParams := some ⟨1/2, 3/10⟩,
    sectors := [sector1],
    drsZones := [⟨500, 1000, 2000⟩],
    pitLane := some ⟨4500, 200, 22, 20⟩ }

/-- A track whose `overtakingDifficulty` is the in-range value 0 — where
the JS `|| 0.5` default diverges from the specified score formula. -/
def trackOD0 : Track := { trackA with overtakingDifficulty := 0 }

def trackNoPit : Track := { trackA with pitLane := Option.none }

def driverA : Driver :=
  { id := "d1", basePace := 88,
    skill := ⟨80, 80, 50, 50⟩,
    performance := ⟨90, 90, 90, 90, 85⟩,
    personality := ⟨70, 80, 50⟩,
    morale := 80, trust := 50 }

def driverB : Driver := { driverA with id := "d2" }

def mkVehicle (id : String) (pos : ℕ) (dist : ℚ) : VehicleState :=
  { id := id, driverId := id, distanceOnLap := dist, totalDistance := dist,
    speed := 0, acceleration := 0, lapCount := 1, currentSector := 1,
    isInPit := false, pitStopCount := 0, boxThisLap := false,
    tyreCompound := TyreCompound.soft, tyreWear := 0, tyreAgeLaps := 0,
    fuelLoad := 50, ersLevel := 50, ersMode := ERSMode.balanced,
    paceMode := PaceMode.balanced, condition := 1, damage := 0, stress := 0,
    morale := 80, concentration := 80, drsOpen := false, inDirtyAir := false,
    isBattling := false, blueFlag := false, currentLapTime := 0,
    lastLapTime := 0, bestLapTime := 0, gapToLeader := 0, gapToAhead := 0,
    position := pos, lastPosition := pos, hasFinished := false,
    strategyPlan := ⟨[⟨TyreCompound.soft, 0, 15, Option.none⟩,
                      ⟨TyreCompound.hard, 15, 30, Option.none⟩], 0⟩,
    telemetry := ⟨[], []⟩ }

def mkRace (vehicles : List VehicleState) : RaceState :=
  { id := "race-0", trackId := "t", currentLap := 1, totalLaps := 30,
    weather := WeatherCondition.dry, weatherMode := WeatherMode.simulation,
    weatherForecast := [⟨0, 30, 0⟩], cloudCover := 30, rainIntensityLevel := 0,
    windSpeed := 10, windDirection := 0, trackTemp := 25, airTemp := 20,
    rubberLevel := 50, sectorConditions := [⟨"s1", 0, 50⟩], trackWaterDepth := 0,
    safetyCar := SafetyCarStatus.none, vehicles := vehicles,
    status := RaceStatus.racing, checkeredFlag := false, winnerId := Option.none,
    elapsedTime := 0 }

/-- Two cars mid-pit-lane with identical progress records: the tick snaps
both to the same `distanceOnLap`, producing a full tie of the
`(lapCount, distanceOnLap)` key at the published snapshot. -/
def pitRecC2 : PitProgress := ⟨15, 45/2, 5/2, 20, 4500, 700⟩

def esC2 : EngineState :=
  { race := mkRace
      [{ mkVehicle "d1" 1 4600 with isInPit := true, speed := 22 },
       { mkVehicle "d2" 2 4590 with isInPit := true, speed := 22 }],
    rng := ⟨1⟩, mathRandom := ⟨mhalf, 0⟩,
    pitStates := [("d1", pitRecC2), ("d2", pitRecC2)],
    safetyCarTimer := 0, forecastUpdateTimer := 0 }

/-- A racing state whose stored `gapToAhead` is stale relative to the
current `(lapCount, distanceOnLap)` data — exactly what every tick
publishes, since physics moves the cars *after* the gaps are computed. -/
def esC3 : EngineState :=
  { race := mkRace
      [mkVehicle "d1" 1 1000,
       { mkVehicle "d2" 2 900 with gapToAhead := 7 }],
    rng := ⟨1⟩, mathRandom := ⟨mhalf, 0⟩,
    pitStates := [], safetyCarTimer := 0, forecastUpdateTimer := 0 }

/-- A car one tick away from its pit release. -/
def pitV : VehicleState := { mkVehicle "d1" 1 4700 with isInPit := true }

def pitPr : String × PitProgress := ("d1", ⟨1/20, 45/2, 5/2, 20, 4500, 700⟩)

/-! ## Theorems -/

/-! ### RNG basics -/

theorem SeededRNG.next_nonneg (r : SeededRNG) : 0 ≤ r.next.1 := by
  unfold SeededRNG.next
  positivity

theorem xor_lt_u32 {a b : ℕ} (ha : a < U32) (hb : b < U32) : Nat.xor a b < U32 := by
  have h32 : U32 = 2 ^ 32 := by norm_num [U32]
  rw [h32] at ha hb ⊢
  exact Nat.xor_lt_two_pow ha hb

theorem SeededRNG.next_lt_one (r : SeededRNG) : r.next.1 < 1 := by
  have hm : ∀ a : ℕ, a % U32 < U32 := fun a => Nat.mod_lt _ (by norm_num [U32])
  simp only [SeededRNG.next]
  rw [div_lt_one (by norm_num [U32])]
  have : ∀ t2 : ℕ, t2 < U32 → Nat.xor t2 (t2 / 16384) < U32 := fun t2 ht =>
    xor_lt_u32 ht (Nat.lt_of_le_of_lt (Nat.div_le_self _ _) ht)
  rw [Nat.cast_lt]
  apply this
  exact xor_lt_u32 (by unfold imul32; exact hm _) (hm _)

theorem SeededRNG.chance_zero (r : SeededRNG) : (r.chance 0).1 = false := by
  simp only [SeededRNG.chance, decide_eq_false_iff_not, not_lt]
  exact r.next_nonneg

theorem SeededRNG.range_lower (r : SeededRNG) {lo hi : ℚ} (h : lo ≤ hi) :
    lo ≤ (r.range lo hi).1 := by
  simp only [SeededRNG.range]
  nlinarith [r.next_nonneg]

theorem SeededRNG.range_lt (r : SeededRNG) {lo hi : ℚ} (h : lo < hi) :
    (r.range lo hi).1 < hi := by
  simp only [SeededRNG.range]
  nlinarith [r.next_lt_one, r.next_nonneg]

/-! ### C7 — external weather push -/

/-- C7: for every state whose `weatherMode` is `simulation`,
`setRealWeatherData` leaves the state completely unchanged; for every
state whose `weatherMode` is `real`, it sets `rainIntensityLevel` to
`min(100, precipitation/5·100)` when `precipitation > 0` and to `0`
otherwise, and copies `cloudCover`, `windSpeed`, `windDirection` and
`temp` (into `airTemp`) into the state. -/
theorem setRealWeatherData_C7 (state : RaceState) (data : RealWeatherData) :
    (state.weatherMode = WeatherMode.simulation →
      WeatherSystem.setRealWeatherData state data = state) ∧
    (state.weatherMode = WeatherMode.real →
      (WeatherSystem.setRealWeatherData state data).rainIntensityLevel
          = (if data.precipitation > 0 then min 100 (data.precipitation / 5 * 100) else 0)
        ∧ (WeatherSystem.setRealWeatherData state data).cloudCover = data.cloudCover
        ∧ (WeatherSystem.setRealWeatherData state data).windSpeed = data.windSpeed
        ∧ (WeatherSystem.setRealWeatherData state data).windDirection = data.windDirection
        ∧ (WeatherSystem.setRealWeatherData state data).airTemp = data.temp) := by
  constructor
  · intro h
    simp [WeatherSystem.setRealWeatherData, h]
  · intro h
    simp [WeatherSystem.setRealWeatherData, h]

theorem setRealWeatherData_C7_witness :
    (WeatherSystem.setRealWeatherData
        { mkRace [] with weatherMode := WeatherMode.real } ⟨55, 12, 180, 18, 2⟩).rainIntensityLevel
        = (if (2 : ℚ) > 0 then min 100 ((2 : ℚ) / 5 * 100) else 0)
      ∧ (WeatherSystem.setRealWeatherData
        { mkRace [] with weatherMode := WeatherMode.real } ⟨55, 12, 180, 18, 2⟩).cloudCover = 55
      ∧ (WeatherSystem.setRealWeatherData
        { mkRace [] with weatherMode := WeatherMode.real } ⟨55, 12, 180, 18, 2⟩).windSpeed = 12
      ∧ (WeatherSystem.setRealWeatherData
        { mkRace [] with weatherMode := WeatherMode.real } ⟨55, 12, 180, 18, 2⟩).windDirection = 180
      ∧ (WeatherSystem.setRealWeatherData
        { mkRace [] with weatherMode := WeatherMode.real } ⟨55, 12, 180, 18, 2⟩).airTemp = 18 :=
  (setRealWeatherData_C7 { mkRace [] with weatherMode := WeatherMode.real }
    ⟨55, 12, 180, 18, 2⟩).2 rfl

/-! ### C6 — DRS gating -/

/-- C6 (amended): after the DRS update, `drsOpen` holds iff the gate
(lap ≥ 3, dry, green flag) passes, the car is inside a zone, and *either*
the grant condition (not leader, gap < 1 s) holds *or* the flag was
already open — inside a zone with the grant condition false the previous
value is retained, so the plain "iff grant" of the claim fails. -/
theorem updateDRS_C6 (track : Track) (state : RaceState) (v : VehicleState) :
    (RaceLogicSystem.updateDRS track state v).drsOpen =
      (decide (3 ≤ state.currentLap) && decide (state.weather = WeatherCondition.dry)
        && decide (state.safetyCar = SafetyCarStatus.none)
        && (track.drsZones.any fun z =>
              decide (v.distanceOnLap ≥ z.activationDistance
                ∧ v.distanceOnLap ≤ z.endDistance))
        && (v.drsOpen || (decide (1 < v.position) && decide (v.gapToAhead < 1)))) := by
  unfold RaceLogicSystem.updateDRS
  by_cases h1 : state.currentLap < 3 ∨ state.weather ≠ WeatherCondition.dry
      ∨ state.safetyCar ≠ SafetyCarStatus.none
  · rw [if_pos h1]
    rcases h1 with h | h | h
    · have : ¬ (3 ≤ state.currentLap) := by omega
      simp [this]
    · simp [h]
    · simp [h]
  · rw [if_neg h1]
    push_neg at h1
    obtain ⟨ha, hb, hc⟩ := h1
    have ha3 : 3 ≤ state.currentLap := by omega
    by_cases hz : (track.drsZones.any fun z =>
        decide (v.distanceOnLap ≥ z.activationDistance
          ∧ v.distanceOnLap ≤ z.endDistance)) = true
    · rw [if_pos hz, hz]
      by_cases hg : v.position > 1 ∧ v.gapToAhead < 1
      · rw [if_pos hg]
        simp [ha3, hb, hc, hg.1, hg.2]
      · rw [if_neg hg]
        rcases Decidable.not_and_iff_or_not.mp hg with h | h
        · simp [ha3, hb, hc, h]
        · simp [ha3, hb, hc, h]
    · rw [Bool.not_eq_true] at hz
      rw [if_neg (by rw [hz]; exact Bool.false_ne_true), hz]
      simp

/-- C6 counterexample: at lap 3, dry, green flag, a car *inside* a DRS zone
that already holds `drsOpen` but whose gap to the car ahead is 2 s keeps
the flag open — refuting "`drsOpen` iff … `gapToAhead` below 1.0". -/
theorem updateDRS_C6_counterexample :
    ¬ ((RaceLogicSystem.updateDRS trackA { mkRace [] with currentLap := 3 }
          { mkVehicle "d1" 2 1500 with drsOpen := true, gapToAhead := 2 }).drsOpen = true ↔
        (3 ≤ ({ mkRace [] with currentLap := 3 } : RaceState).currentLap
          ∧ ({ mkRace [] with currentLap := 3 } : RaceState).weather = WeatherCondition.dry
          ∧ ({ mkRace [] with currentLap := 3 } : RaceState).safetyCar = SafetyCarStatus.none
          ∧ (∃ z ∈ trackA.drsZones,
              ({ mkVehicle "d1" 2 1500 with drsOpen := true, gapToAhead := 2 }
                : VehicleState).distanceOnLap ≥ z.activationDistance
              ∧ ({ mkVehicle "d1" 2 1500 with drsOpen := true, gapToAhead := 2 }
                : VehicleState).distanceOnLap ≤ z.endDistance)
          ∧ 1 < ({ mkVehicle "d1" 2 1500 with drsOpen := true, gapToAhead := 2 }
                : VehicleState).position
          ∧ ({ mkVehicle "d1" 2 1500 with drsOpen := true, gapToAhead := 2 }
                : VehicleState).gapToAhead < 1)) := by
  decide

/-! ### C10 — updateStrategy frame -/

theorem find?_updateFirst {α : Type} {p : α → Bool} {f : α → α} {l : List α} {u : α}
    (h : l.find? p = some u) :
    ∃ i, l.get? i = some u ∧ p u = true ∧
      (∀ j, j < i → ∀ w, l.get? j = some w → p w = false) ∧
      updateFirst p f l = l.set i (f u) := by
  induction l with
  | nil => simp at h
  | cons a t ih =>
      by_cases ha : p a
      · rw [List.find?_cons_of_pos _ ha] at h
        obtain rfl : a = u := by simpa using h
        refine ⟨0, rfl, ha, ?_, ?_⟩
        · intro j hj
          omega
        · simp [updateFirst, ha]
      · rw [List.find?_cons_of_neg _ ha] at h
        obtain ⟨i, hget, hp, hpre, heq⟩ := ih h
        refine ⟨i + 1, by simpa using hget, hp, ?_, ?_⟩
        · intro j hj w hw
          cases j with
          | zero =>
              obtain rfl : a = w := by simpa using hw
              simpa using ha
          | succ j =>
              exact hpre j (by omega) w (by simpa using hw)
        · simp [updateFirst, ha, heq]

/-- C10: if no vehicle carries the driver id, `updateStrategy` leaves the
state unchanged; if one does (the first such vehicle, at index `i`), the
`pace` channel rewrites exactly that vehicle's `paceMode` and the `ers`
channel exactly its `ersMode` — the rest of that vehicle, all other
vehicles, and every race-level field are untouched (the result is the
state with only `vehicles[i]` replaced by the one-field update). -/
theorem updateStrategy_C10 (state : RaceState) (driverId : String) :
    (state.vehicles.find? (fun v => v.driverId = driverId) = Option.none →
      ∀ ch, SimulationEngine.updateStrategy driverId ch state = state) ∧
    ((∃ u, state.vehicles.find? (fun v => v.driverId = driverId) = some u) →
      (∀ pm : PaceMode, ∃ i v, state.vehicles.get? i = some v ∧ v.driverId = driverId ∧
        (∀ j, j < i → ∀ w, state.vehicles.get? j = some w → w.driverId ≠ driverId) ∧
        SimulationEngine.updateStrategy driverId (StrategyChannel.pace pm) state
          = { state with vehicles := state.vehicles.set i { v with paceMode := pm } }) ∧
      (∀ em : ERSMode, ∃ i v, state.vehicles.get? i = some v ∧ v.driverId = driverId ∧
        (∀ j, j < i → ∀ w, state.vehicles.get? j = some w → w.driverId ≠ driverId) ∧
        SimulationEngine.updateStrategy driverId (StrategyChannel.ers em) state
          = { state with vehicles := state.vehicles.set i { v with ersMode := em } })) := by
  constructor
  · intro h ch
    unfold SimulationEngine.updateStrategy
    rw [h]
  · rintro ⟨u, hu⟩
    constructor
    · intro pm
      obtain ⟨i, hget, hp, hpre, heq⟩ :=
        find?_updateFirst (f := fun v => { v with paceMode := pm }) hu
      refine ⟨i, u, hget, by simpa using hp, ?_, ?_⟩
      · intro j hj w hw
        simpa using hpre j hj w hw
      · unfold SimulationEngine.updateStrategy
        rw [hu]
        simpa using heq
    · intro em
      obtain ⟨i, hget, hp, hpre, heq⟩ :=
        find?_updateFirst (f := fun v => { v with ersMode := em }) hu
      refine ⟨i, u, hget, by simpa using hp, ?_, ?_⟩
      · intro j hj w hw
        simpa using hpre j hj w hw
      · unfold SimulationEngine.updateStrategy
        rw [hu]
        simpa using heq

theorem updateStrategy_C10_witness :
    ∀ pm : PaceMode, ∃ i v,
      (mkRace [mkVehicle "d1" 1 0, mkVehicle "d2" 2 0]).vehicles.get? i = some v
      ∧ v.driverId = "d2"
      ∧ (∀ j, j < i → ∀ w,
          (mkRace [mkVehicle "d1" 1 0, mkVehicle "d2" 2 0]).vehicles.get? j = some w →
            w.driverId ≠ "d2")
      ∧ SimulationEngine.updateStrategy "d2" (StrategyChannel.pace pm)
          (mkRace [mkVehicle "d1" 1 0, mkVehicle "d2" 2 0])
        = { mkRace [mkVehicle "d1" 1 0, mkVehicle "d2" 2 0] with
            vehicles := (mkRace [mkVehicle "d1" 1 0, mkVehicle "d2" 2 0]).vehicles.set i
              { v with paceMode := pm } } :=
  ((updateStrategy_C10 (mkRace [mkVehicle "d1" 1 0, mkVehicle "d2" 2 0]) "d2").2
    ⟨mkVehicle "d2" 2 0, by decide⟩).1

/-! ### C4 — pit release servicing -/

set_option maxHeartbeats 1000000 in
theorem pitMovement_frame (track : Track) (state : RaceState) (v : VehicleState)
    (ps : PitProgress) (dt : ℚ) :
    (RaceLogicSystem.pitMovement track state v ps dt).1.pitStopCount = v.pitStopCount
    ∧ (RaceLogicSystem.pitMovement track state v ps dt).1.strategyPlan = v.strategyPlan
    ∧ (RaceLogicSystem.pitMovement track state v ps dt).1.tyreWear = v.tyreWear
    ∧ (RaceLogicSystem.pitMovement track state v ps dt).1.isInPit = v.isInPit
    ∧ (RaceLogicSystem.pitMovement track state v ps dt).1.boxThisLap = v.boxThisLap
    ∧ (RaceLogicSystem.pitMovement track state v ps dt).1.id = v.id
    ∧ (RaceLogicSystem.pitMovement track state v ps dt).2.rainIntensityLevel
        = state.rainIntensityLevel := by
  unfold RaceLogicSystem.pitMovement
  refine ⟨?_, ?_, ?_, ?_, ?_, ?_, ?_⟩ <;>
    simp only [apply_ite VehicleState.pitStopCount, apply_ite VehicleState.strategyPlan,
      apply_ite VehicleState.tyreWear, apply_ite VehicleState.isInPit,
      apply_ite VehicleState.boxThisLap, apply_ite VehicleState.id,
      apply_ite RaceState.rainIntensityLevel, ite_self]

/-- C4: when a vehicle's pit timer expires on a track with a defined pit
lane, the release snaps `distanceOnLap` to the pit-lane `exitDistance`,
increments `pitStopCount`, clears `boxThisLap` (and `isInPit`), resets
`tyreWear` and `tyreAgeLaps` to 0, zeroes `damage`, advances the plan's
`currentStintIndex` by 1, and fits the compound given by rain > 60 → wet;
rain > 10 → intermediate; else the next planned stint's compound if one
exists, otherwise by laps remaining (< 15 soft, < 30 medium, else hard). -/
theorem handlePitStopLogic_C4 (track : Track) (state : RaceState) (v : VehicleState)
    (pitStates : List (String × PitProgress)) (rng : SeededRNG) (dt : ℚ)
    (pl : PitLane) (pr : String × PitProgress)
    (hin : v.isInPit = true)
    (hfind : pitStates.find? (fun p => p.1 = v.id) = some pr)
    (hrel : pr.2.timeLeft - dt ≤ 0)
    (hpl : track.pitLane = some pl) :
    (RaceLogicSystem.handlePitStopLogic track state v pitStates rng dt).1.distanceOnLap
        = pl.exitDistance
    ∧ (RaceLogicSystem.handlePitStopLogic track state v pitStates rng dt).1.pitStopCount
        = v.pitStopCount + 1
    ∧ (RaceLogicSystem.handlePitStopLogic track state v pitStates rng dt).1.boxThisLap = false
    ∧ (RaceLogicSystem.handlePitStopLogic track state v pitStates rng dt).1.isInPit = false
    ∧ (RaceLogicSystem.handlePitStopLogic track state v pitStates rng dt).1.tyreWear = 0
    ∧ (RaceLogicSystem.handlePitStopLogic track state v pitStates rng dt).1.tyreAgeLaps = 0
    ∧ (RaceLogicSystem.handlePitStopLogic track state v pitStates rng dt).1.damage = 0
    ∧ (RaceLogicSystem.handlePitStopLogic track state v pitStates rng dt).1.strategyPlan.currentStintIndex
        = v.strategyPlan.currentStintIndex + 1
    ∧ (RaceLogicSystem.handlePitStopLogic track state v pitStates rng dt).1.tyreCompound
        = (if (RaceLogicSystem.handlePitStopLogic track state v pitStates rng dt).2.1.rainIntensityLevel > 60
           then TyreCompound.wet
           else if (RaceLogicSystem.handlePitStopLogic track state v pitStates rng dt).2.1.rainIntensityLevel > 10
           then TyreCompound.intermediate
           else
             match v.strategyPlan.stints.get? (v.strategyPlan.currentStintIndex + 1) with
             | some st => st.compound
             | Option.none =>
                 if (track.totalLaps : ℤ)
                     - ((RaceLogicSystem.handlePitStopLogic track state v pitStates rng dt).2.1.currentLap : ℤ) < 15
                 then TyreCompound.soft
                 else if (track.totalLaps : ℤ)
                     - ((RaceLogicSystem.handlePitStopLogic track state v pitStates rng dt).2.1.currentLap : ℤ) < 30
                 then TyreCompound.medium
                 else TyreCompound.hard) := by
  have hens : RaceLogicSystem.pitEnsure track v pitStates rng = (pr.2, pitStates, rng) := by
    unfold RaceLogicSystem.pitEnsure
    rw [hfind]
  have hrel2 : ({ pr.2 with timeLeft := pr.2.timeLeft - dt } : PitProgress).timeLeft ≤ 0 := hrel
  have hmain : RaceLogicSystem.handlePitStopLogic track state v pitStates rng dt
      = (RaceLogicSystem.pitReleaseService track
           (RaceLogicSystem.pitMovement track state v
             { pr.2 with timeLeft := pr.2.timeLeft - dt } dt).2
           (RaceLogicSystem.pitMovement track state v
             { pr.2 with timeLeft := pr.2.timeLeft - dt } dt).1,
         (RaceLogicSystem.pitMovement track state v
             { pr.2 with timeLeft := pr.2.timeLeft - dt } dt).2,
         removePitState
           (setPitState pitStates v.id { pr.2 with timeLeft := pr.2.timeLeft - dt }) v.id,
         rng) := by
    unfold RaceLogicSystem.handlePitStopLogic
    rw [hin]
    simp only [Bool.not_true, Bool.false_eq_true, if_false, hens]
    rw [if_pos hrel2]
  obtain ⟨hc1, hc2, hc3, hc4, hc5, hc6, hc7⟩ :=
    pitMovement_frame track state v { pr.2 with timeLeft := pr.2.timeLeft - dt } dt
  rw [hmain]
  unfold RaceLogicSystem.pitReleaseService
  rw [hpl]
  refine ⟨rfl, by rw [hc1], rfl, rfl, rfl, rfl, rfl, by rw [hc2], ?_⟩
  simp only [StrategySystem.getPitCompound, hc2]

theorem handlePitStopLogic_C4_witness :
    (RaceLogicSystem.handlePitStopLogic trackA (mkRace []) pitV [pitPr] ⟨1⟩ (1/10)).1.distanceOnLap
        = 200
    ∧ (RaceLogicSystem.handlePitStopLogic trackA (mkRace []) pitV [pitPr] ⟨1⟩ (1/10)).1.pitStopCount
        = pitV.pitStopCount + 1
    ∧ (RaceLogicSystem.handlePitStopLogic trackA (mkRace []) pitV [pitPr] ⟨1⟩ (1/10)).1.boxThisLap = false
    ∧ (RaceLogicSystem.handlePitStopLogic trackA (mkRace []) pitV [pitPr] ⟨1⟩ (1/10)).1.isInPit = false
    ∧ (RaceLogicSystem.handlePitStopLogic trackA (mkRace []) pitV [pitPr] ⟨1⟩ (1/10)).1.tyreWear = 0
    ∧ (RaceLogicSystem.handlePitStopLogic trackA (mkRace []) pitV [pitPr] ⟨1⟩ (1/10)).1.tyreAgeLaps = 0
    ∧ (RaceLogicSystem.handlePitStopLogic trackA (mkRace []) pitV [pitPr] ⟨1⟩ (1/10)).1.damage = 0
    ∧ (RaceLogicSystem.handlePitStopLogic trackA (mkRace []) pitV [pitPr] ⟨1⟩
        (1/10)).1.strategyPlan.currentStintIndex
        = pitV.strategyPlan.currentStintIndex + 1
    ∧ (RaceLogicSystem.handlePitStopLogic trackA (mkRace []) pitV [pitPr] ⟨1⟩ (1/10)).1.tyreCompound
        = (if (RaceLogicSystem.handlePitStopLogic trackA (mkRace []) pitV [pitPr] ⟨1⟩
              (1/10)).2.1.rainIntensityLevel > 60
           then TyreCompound.wet
           else if (RaceLogicSystem.handlePitStopLogic trackA (mkRace []) pitV [pitPr] ⟨1⟩
              (1/10)).2.1.rainIntensityLevel > 10
           then TyreCompound.intermediate
           else
             match pitV.strategyPlan.stints.get? (pitV.strategyPlan.currentStintIndex + 1) with
             | some st => st.compound
             | Option.none =>
                 if (trackA.totalLaps : ℤ)
                     - ((RaceLogicSystem.handlePitStopLogic trackA (mkRace []) pitV [pitPr] ⟨1⟩
                          (1/10)).2.1.currentLap : ℤ) < 15
                 then TyreCompound.soft
                 else if (trackA.totalLaps : ℤ)
                     - ((RaceLogicSystem.handlePitStopLogic trackA (mkRace []) pitV [pitPr] ⟨1⟩
                          (1/10)).2.1.currentLap : ℤ) < 30
                 then TyreCompound.medium
                 else TyreCompound.hard) :=
  handlePitStopLogic_C4 trackA (mkRace []) pitV [pitPr] ⟨1⟩ (1/10) ⟨4500, 200, 22, 20⟩ pitPr
    rfl (by rfl) (by norm_num [pitPr]) rfl

/-! ### C5 — overtake resolver -/

/-- C5 (amended): the source overtake resolver coincides with the
resolver transcribed from the specification sentence, amended only in
that a zero `overtakingDifficulty` is replaced by 0.5 (the JS `||`
default).  This covers the guards (battling, non-leader, gap ≤ 0.2 s),
the score and clamped probability formulas, the 30 % coin-flip override,
the per-frame `p·0.1` application, the +5 m/s surge clearing
`isBattling` on success, and the 10 % ×0.95 check-up on failure. -/
theorem attemptOvertake_C5 (track : Track) (drivers : List Driver)
    (vehiclesLive : List VehicleState) (attacker : VehicleState) (rng : SeededRNG) :
    RaceLogicSystem.attemptOvertake track drivers vehiclesLive attacker rng
      = overtakeResolverSpec track drivers vehiclesLive attacker rng := by
  unfold RaceLogicSystem.attemptOvertake overtakeResolverSpec
  by_cases hb : attacker.isBattling
  · by_cases hp : attacker.position = 1
    · rw [if_pos (by simp [hb, hp]), if_neg (by simp [hp])]
    · rw [if_neg (by simp [hb, hp])]
      by_cases hg : attacker.gapToAhead ≤ 2/10
      · rw [if_pos ⟨hb, hp, hg⟩]
        cases hfind : vehiclesLive.find?
            (fun v2 => decide (v2.position = attacker.position - 1)) with
        | none => rfl
        | some defender =>
            dsimp only
            cases hA : findDriver drivers attacker.driverId with
            | none => rfl
            | some ad =>
                cases hD : findDriver drivers defender.driverId with
                | none => rfl
                | some dd =>
                    show (if attacker.gapToAhead > 2/10 then (attacker, rng) else _) = _
                    rw [if_neg (not_lt.mpr hg)]
                    have hprob : RaceLogicSystem.overtakeSuccessProb track ad dd attacker defender
                        = max (1/20) (min (95/100)
                            (2/10 + (1/2) * (20 + (1/2) * (ad.skill.racecraft - dd.skill.racecraft)
                              + 2 * (attacker.speed - defender.speed)
                              + (if attacker.drsOpen then (30:ℚ) else 0)
                              + (3/2) * ((defender.tyreAgeLaps : ℚ) - (attacker.tyreAgeLaps : ℚ))
                              - 20 * (if track.overtakingDifficulty = 0 then 1/2
                                      else track.overtakingDifficulty)) / 100)) := by
                      unfold RaceLogicSystem.overtakeSuccessProb RaceLogicSystem.overtakeScore jsOr
                      ring_nf
                    dsimp only
                    rw [hprob]
                    split_ifs <;> rfl
      · rw [if_neg (by intro h; exact hg h.2.2)]
        cases hfind : vehiclesLive.find?
            (fun v2 => decide (v2.position = attacker.position - 1)) with
        | none => rfl
        | some defender =>
            dsimp only
            cases hA : findDriver drivers attacker.driverId with
            | none => rfl
            | some ad =>
                cases hD : findDriver drivers defender.driverId with
                | none => rfl
                | some dd =>
                    show (if attacker.gapToAhead > 2/10 then (attacker, rng) else _) = _
                    rw [if_pos (not_le.mp hg)]
  · rw [if_pos (by simp [hb]), if_neg (by simp [hb])]

/-- C5 counterexample: at a track whose `overtakingDifficulty` is 0 the
claimed score formula `... − 20·overtakingDifficulty` predicts 20 for two
identical cars and drivers, but the code's `||`-defaulting
(`overtakingDifficulty || 0.5`) yields a penalty of 10, so the score is
10.  The claim's formula is therefore wrong for zero difficulty. -/
theorem attemptOvertake_C5_counterexample :
    RaceLogicSystem.overtakeScore trackOD0 driverA driverA
        (mkVehicle "d1" 2 0) (mkVehicle "d2" 1 0)
      ≠ 20 + ((driverA.skill.racecraft - driverA.skill.racecraft) * (1/2)
          + ((mkVehicle "d1" 2 0).speed - (mkVehicle "d2" 1 0).speed) * 2
          + (if (mkVehicle "d1" 2 0).drsOpen then (30:ℚ) else 0)
          + (((mkVehicle "d2" 1 0).tyreAgeLaps : ℚ)
              - ((mkVehicle "d1" 2 0).tyreAgeLaps : ℚ)) * (3/2)
          - 20 * trackOD0.overtakingDifficulty) := by
  with_unfolding_all decide

/-- On a strictly time-sorted forecast, the bracketing-segment search at a
node's own `timeOffset` either returns the segment starting at that node,
or fails (returning `none`) exactly when the node is the last one. -/
theorem findSegment_at_node : ∀ (l : List WeatherForecastItem)
    (node : WeatherForecastItem),
    l.Pairwise (fun x y => x.timeOffset < y.timeOffset) → node ∈ l →
    (∃ b, WeatherSystem.findSegment node.timeOffset l = some (node, b))
    ∨ (WeatherSystem.findSegment node.timeOffset l = Option.none
        ∧ l.getLast? = some node)
  | [], _, _, hmem => absurd hmem (by simp)
  | [a], node, _, hmem => by
      right
      refine ⟨rfl, ?_⟩
      have : node = a := by simpa using hmem
      simp [this]
  | a :: b :: rest, node, hsort, hmem => by
      rcases List.mem_cons.mp hmem with rfl | hmem2
      · left
        refine ⟨b, ?_⟩
        have hab : node.timeOffset < b.timeOffset :=
          (List.pairwise_cons.mp hsort).1 b (by simp)
        simp only [WeatherSystem.findSegment]
        rw [if_pos ⟨le_refl _, hab⟩]
      · have hpb : (b :: rest).Pairwise (fun x y => x.timeOffset < y.timeOffset) :=
          (List.pairwise_cons.mp hsort).2
        have hble : b.timeOffset ≤ node.timeOffset := by
          rcases List.mem_cons.mp hmem2 with rfl | hmem3
          · exact le_refl _
          · exact le_of_lt ((List.pairwise_cons.mp hpb).1 node hmem3)
        have step : WeatherSystem.findSegment node.timeOffset (a :: b :: rest)
            = WeatherSystem.findSegment node.timeOffset (b :: rest) := by
          simp only [WeatherSystem.findSegment]
          rw [if_neg (fun h => absurd h.2 (not_lt.mpr hble))]
        rw [step]
        rcases findSegment_at_node (b :: rest) node hpb hmem2 with h | ⟨h1, h2⟩
        · exact Or.inl h
        · exact Or.inr ⟨h1, by rw [List.getLast?_cons_cons]; exact h2⟩

/-- In a strictly time-sorted nonempty list, if the head's `timeOffset` is
not below the last node's, the head *is* the last node. -/
theorem head_eq_last_of_not_lt (a : WeatherForecastItem)
    (l' : List WeatherForecastItem) (node : WeatherForecastItem)
    (hsort : (a :: l').Pairwise (fun x y => x.timeOffset < y.timeOffset))
    (hl2 : (a :: l').getLast? = some node)
    (hn : ¬ a.timeOffset < node.timeOffset) : a = node := by
  cases l' with
  | nil => simpa using hl2
  | cons b rest =>
      have hmem : node ∈ b :: rest :=
        List.mem_of_getLast?_eq_some (List.getLast?_cons_cons ▸ hl2)
      exact absurd ((List.pairwise_cons.mp hsort).1 node hmem) hn

/-- C8: on a forecast list sorted by strictly increasing `timeOffset`,
evaluating the linear interpolation of `WeatherSystem.update` at an
elapsed time exactly equal to a node's `timeOffset` returns that node's
stored `cloudCover` and `rainIntensity` exactly. -/
theorem interpolateForecast_C8 (forecast : List WeatherForecastItem)
    (node : WeatherForecastItem) (cur : ℚ × ℚ)
    (hsort : forecast.Pairwise (fun x y => x.timeOffset < y.timeOffset))
    (hmem : node ∈ forecast) :
    (WeatherSystem.interpolateForecast forecast node.timeOffset cur).1
      = (node.cloudCover, node.rainIntensity) := by
  have hle : forecast.Pairwise (fun x y => WeatherSystem.forecastLe x y = true) :=
    hsort.imp (fun h => by simpa [WeatherSystem.forecastLe] using le_of_lt h)
  have hms : forecast.mergeSort WeatherSystem.forecastLe = forecast :=
    List.mergeSort_of_sorted hle
  cases hl : forecast with
  | nil => rw [hl] at hmem; cases hmem
  | cons a l' =>
      subst hl
      obtain ⟨last, hlast⟩ : ∃ y, (a :: l').getLast? = some y :=
        ⟨(a :: l').getLast (by simp), List.getLast?_eq_getLast _ (by simp)⟩
      unfold WeatherSystem.interpolateForecast
      rw [hms]
      simp only [List.head?_cons, hlast]
      rcases findSegment_at_node (a :: l') node hsort hmem with ⟨b, hfs⟩ | ⟨hfs, hl2⟩
      · rw [hfs]
        dsimp only [Option.getD]
        split
        · simp [sub_self]
        · simp
      · obtain rfl : node = last := (Option.some.inj (hlast.symm.trans hl2)).symm
        rw [hfs]
        dsimp only [Option.getD]
        by_cases hlt : a.timeOffset < node.timeOffset
        · rw [if_pos hlt, div_self (sub_ne_zero.mpr (ne_of_gt hlt))]
          simp only [Prod.mk.injEq]
          constructor <;> ring
        · obtain rfl : a = node := head_eq_last_of_not_lt a l' node hsort hl2 hlt
          rw [if_neg hlt]
          simp

/-- Witness for C8: the two-node forecast [(0, 20, 0), (300, 80, 40)] is
strictly sorted, contains the node (300, 80, 40), and interpolation at
t = 300 returns exactly (80, 40). -/
theorem interpolateForecast_C8_witness :
    ([⟨0, 20, 0⟩, ⟨300, 80, 40⟩] : List WeatherForecastItem).Pairwise
        (fun x y => x.timeOffset < y.timeOffset)
    ∧ (⟨300, 80, 40⟩ : WeatherForecastItem) ∈
        ([⟨0, 20, 0⟩, ⟨300, 80, 40⟩] : List WeatherForecastItem)
    ∧ (WeatherSystem.interpolateForecast
        [⟨0, 20, 0⟩, ⟨300, 80, 40⟩]
        (WeatherForecastItem.timeOffset ⟨300, 80, 40⟩) (0, 0)).1
      = ((WeatherForecastItem.cloudCover ⟨300, 80, 40⟩),
         (WeatherForecastItem.rainIntensity ⟨300, 80, 40⟩)) :=
  ⟨by norm_num, by simp,
   interpolateForecast_C8 [⟨0, 20, 0⟩, ⟨300, 80, 40⟩] ⟨300, 80, 40⟩ (0, 0)
     (by norm_num) (by simp)⟩

/-- `assignOne` stamps `position := index + 1` in every branch. -/
theorem assignOne_position (track : Track) (sorted : List VehicleState)
    (p : ℕ × VehicleState) :
    (RaceLogicSystem.assignOne track sorted p).position = p.1 + 1 := by
  unfold RaceLogicSystem.assignOne
  dsimp only
  split
  · simp [apply_ite VehicleState.position]
  · split <;> simp [apply_ite VehicleState.position]

/-- `assignOne` never touches `lapCount`. -/
theorem assignOne_lapCount (track : Track) (sorted : List VehicleState)
    (p : ℕ × VehicleState) :
    (RaceLogicSystem.assignOne track sorted p).lapCount = p.2.lapCount := by
  unfold RaceLogicSystem.assignOne
  dsimp only
  split
  · simp [apply_ite VehicleState.lapCount]
  · split <;> simp [apply_ite VehicleState.lapCount]

/-- `assignOne` never touches `distanceOnLap`. -/
theorem assignOne_distanceOnLap (track : Track) (sorted : List VehicleState)
    (p : ℕ × VehicleState) :
    (RaceLogicSystem.assignOne track sorted p).distanceOnLap = p.2.distanceOnLap := by
  unfold RaceLogicSystem.assignOne
  dsimp only
  split
  · simp [apply_ite VehicleState.distanceOnLap]
  · split <;> simp [apply_ite VehicleState.distanceOnLap]

/-- The published positions after the pass are literally `[1, ..., N]`. -/
theorem assignPositionsAndGaps_map_position (track : Track)
    (sorted : List VehicleState) :
    (RaceLogicSystem.assignPositionsAndGaps track sorted).map (fun v => v.position)
      = List.range' 1 sorted.length := by
  unfold RaceLogicSystem.assignPositionsAndGaps
  rw [List.map_map]
  have h1 : ((fun v : VehicleState => v.position) ∘ RaceLogicSystem.assignOne track sorted)
      = (fun i => i + 1) ∘ Prod.fst :=
    funext fun p => assignOne_position track sorted p
  rw [h1, ← List.map_map, List.enum_map_fst, List.range'_eq_map_range]
  exact List.map_congr_left (fun i _ => Nat.add_comm i 1)

/-- The `(lapCount, distanceOnLap)` keys are untouched by the pass. -/
theorem assignPositionsAndGaps_map_key (track : Track)
    (sorted : List VehicleState) :
    (RaceLogicSystem.assignPositionsAndGaps track sorted).map
        (fun v => (v.lapCount, v.distanceOnLap))
      = sorted.map (fun v => (v.lapCount, v.distanceOnLap)) := by
  unfold RaceLogicSystem.assignPositionsAndGaps
  rw [List.map_map]
  have h1 : ((fun v : VehicleState => (v.lapCount, v.distanceOnLap))
        ∘ RaceLogicSystem.assignOne track sorted)
      = (fun v : VehicleState => (v.lapCount, v.distanceOnLap)) ∘ Prod.snd :=
    funext fun p => by
      simp [Function.comp, assignOne_lapCount, assignOne_distanceOnLap]
  rw [h1, ← List.map_map, List.enum_map_snd]

/-- The pass preserves the leaderboard length. -/
theorem assignPositionsAndGaps_length (track : Track) (sorted : List VehicleState) :
    (RaceLogicSystem.assignPositionsAndGaps track sorted).length = sorted.length := by
  unfold RaceLogicSystem.assignPositionsAndGaps
  rw [List.length_map, List.enum_length]

/-- The leaderboard comparator is total. -/
theorem posLe_total (a b : VehicleState) :
    (RaceLogicSystem.posLe a b || RaceLogicSystem.posLe b a) = true := by
  by_cases h : a.lapCount = b.lapCount
  · simp only [RaceLogicSystem.posLe, h, ne_eq, not_true_eq_false, if_false,
      ite_self, Bool.or_eq_true, decide_eq_true_iff]
    exact (le_total b.distanceOnLap a.distanceOnLap)
  · have h2 : ¬ (b.lapCount = a.lapCount) := fun e => h e.symm
    simp only [RaceLogicSystem.posLe, ne_eq, h, h2, not_false_eq_true, if_true,
      Bool.or_eq_true, decide_eq_true_iff]
    exact (Nat.lt_or_ge b.lapCount a.lapCount).imp id
      (fun hge => lt_of_le_of_ne hge h)

/-- The leaderboard comparator is transitive. -/
theorem posLe_trans (a b c : VehicleState) :
    RaceLogicSystem.posLe a b = true → RaceLogicSystem.posLe b c = true →
    RaceLogicSystem.posLe a c = true := by
  intro h1 h2
  unfold RaceLogicSystem.posLe at h1 h2 ⊢
  by_cases hab : a.lapCount = b.lapCount
  · by_cases hbc : b.lapCount = c.lapCount
    · rw [if_neg (not_not_intro (hab.trans hbc))]
      rw [if_neg (not_not_intro hab)] at h1
      rw [if_neg (not_not_intro hbc)] at h2
      rw [decide_eq_true_eq] at h1 h2 ⊢
      exact le_trans h2 h1
    · have hac : a.lapCount ≠ c.lapCount := by rw [hab]; exact hbc
      rw [if_pos hac]
      rw [if_pos hbc] at h2
      rw [decide_eq_true_eq] at h2 ⊢
      rw [hab]
      exact h2
  · by_cases hbc : b.lapCount = c.lapCount
    · have hac : a.lapCount ≠ c.lapCount := fun e => hab (e.trans hbc.symm)
      rw [if_pos hac]
      rw [if_pos hab] at h1
      rw [decide_eq_true_eq] at h1 ⊢
      rw [← hbc]
      exact h1
    · rw [if_pos hab] at h1
      rw [if_pos hbc] at h2
      rw [decide_eq_true_eq] at h1 h2
      have hlt : c.lapCount < a.lapCount := lt_trans h2 h1
      by_cases hac : a.lapCount = c.lapCount
      · exact absurd (hac ▸ hlt) (lt_irrefl _)
      · rw [if_pos hac, decide_eq_true_eq]
        exact hlt

/-- C2 (amended): after `updatePositions` the `position` fields are
literally the permutation `1..N` of the (stably) sorted leaderboard; and
*provided the `(lapCount, distanceOnLap)` keys are pairwise distinct*,
`position(a) < position(b)` holds iff `(lapCount, distanceOnLap)` of `a`
is lexicographically greater than that of `b`.  Without that proviso the
equivalence can fail: full ties are ranked by stable sort order (see the
counterexample, where two pit-lane cars share a key). -/
theorem updatePositions_C2 (track : Track) (state : RaceState) :
    (((RaceLogicSystem.updatePositions track state).vehicles.map
        (fun v => v.position) : List ℕ) : Multiset ℕ)
      = ((List.range' 1 state.vehicles.length : List ℕ) : Multiset ℕ)
    ∧ (state.vehicles.Pairwise
          (fun x y => (x.lapCount, x.distanceOnLap) ≠ (y.lapCount, y.distanceOnLap)) →
        positionsConsistent (RaceLogicSystem.updatePositions track state).vehicles) := by
  have hveh : (RaceLogicSystem.updatePositions track state).vehicles
      = RaceLogicSystem.assignPositionsAndGaps track
          (state.vehicles.mergeSort RaceLogicSystem.posLe) := rfl
  have hslen : (state.vehicles.mergeSort RaceLogicSystem.posLe).length
      = state.vehicles.length := List.length_mergeSort _
  have hmpos : (RaceLogicSystem.assignPositionsAndGaps track
        (state.vehicles.mergeSort RaceLogicSystem.posLe)).map (fun v => v.position)
      = List.range' 1 state.vehicles.length := by
    rw [assignPositionsAndGaps_map_position, hslen]
  have hlen2 : (RaceLogicSystem.assignPositionsAndGaps track
        (state.vehicles.mergeSort RaceLogicSystem.posLe)).length
      = (state.vehicles.mergeSort RaceLogicSystem.posLe).length :=
    assignPositionsAndGaps_length _ _
  constructor
  · rw [hveh, hmpos]
  · intro hkeys
    have hs1 := List.sorted_mergeSort posLe_trans posLe_total state.vehicles
    have hperm := List.mergeSort_perm state.vehicles RaceLogicSystem.posLe
    have hkeys2 : (state.vehicles.mergeSort RaceLogicSystem.posLe).Pairwise
        (fun x y => (x.lapCount, x.distanceOnLap) ≠ (y.lapCount, y.distanceOnLap)) :=
      (List.Perm.pairwise_iff (fun hxy e => hxy e.symm) hperm).mpr hkeys
    have hstrict : (state.vehicles.mergeSort RaceLogicSystem.posLe).Pairwise
        (fun x y => y.lapCount < x.lapCount ∨
          (y.lapCount = x.lapCount ∧ y.distanceOnLap < x.distanceOnLap)) := by
      refine (hs1.and hkeys2).imp ?_
      rintro x y ⟨hle, hne⟩
      unfold RaceLogicSystem.posLe at hle
      by_cases h : x.lapCount = y.lapCount
      · rw [if_neg (not_not_intro h), decide_eq_true_eq] at hle
        refine Or.inr ⟨h.symm, ?_⟩
        have hdne : y.distanceOnLap ≠ x.distanceOnLap := by
          intro e
          exact hne (by rw [h, e])
        exact lt_of_le_of_ne hle hdne
      · rw [if_pos h, decide_eq_true_eq] at hle
        exact Or.inl hle
    have hasymm : ∀ x y : VehicleState,
        (y.lapCount < x.lapCount ∨
          (y.lapCount = x.lapCount ∧ y.distanceOnLap < x.distanceOnLap)) →
        (x.lapCount < y.lapCount ∨
          (x.lapCount = y.lapCount ∧ x.distanceOnLap < y.distanceOnLap)) → False := by
      rintro x y (h1 | ⟨h1, h1d⟩) (h2 | ⟨h2, h2d⟩)
      · exact lt_asymm h1 h2
      · exact absurd (h2 ▸ h1) (lt_irrefl _)
      · exact absurd (h1 ▸ h2) (lt_irrefl _)
      · exact lt_asymm h1d h2d
    refine ⟨?_, ?_⟩
    · rw [hveh, hmpos, hlen2, hslen]
    · intro a ha b hb
      rw [hveh] at ha hb
      obtain ⟨i, hi, rfl⟩ := List.mem_iff_getElem.mp ha
      obtain ⟨j, hj, rfl⟩ := List.mem_iff_getElem.mp hb
      have hi2 : i < (state.vehicles.mergeSort RaceLogicSystem.posLe).length := by
        rw [← hlen2]; exact hi
      have hj2 : j < (state.vehicles.mergeSort RaceLogicSystem.posLe).length := by
        rw [← hlen2]; exact hj
      have hposi := List.getElem_of_eq hmpos (by rw [List.length_map]; exact hi :
        i < ((RaceLogicSystem.assignPositionsAndGaps track
          (state.vehicles.mergeSort RaceLogicSystem.posLe)).map
            (fun v => v.position)).length)
      have hposj := List.getElem_of_eq hmpos (by rw [List.length_map]; exact hj :
        j < ((RaceLogicSystem.assignPositionsAndGaps track
          (state.vehicles.mergeSort RaceLogicSystem.posLe)).map
            (fun v => v.position)).length)
      rw [List.getElem_map, List.getElem_range'] at hposi hposj
      have hkeyi := List.getElem_of_eq
        (assignPositionsAndGaps_map_key track
          (state.vehicles.mergeSort RaceLogicSystem.posLe))
        (by rw [List.length_map]; exact hi :
          i < ((RaceLogicSystem.assignPositionsAndGaps track
            (state.vehicles.mergeSort RaceLogicSystem.posLe)).map
              (fun v => (v.lapCount, v.distanceOnLap))).length)
      have hkeyj := List.getElem_of_eq
        (assignPositionsAndGaps_map_key track
          (state.vehicles.mergeSort RaceLogicSystem.posLe))
        (by rw [List.length_map]; exact hj :
          j < ((RaceLogicSystem.assignPositionsAndGaps track
            (state.vehicles.mergeSort RaceLogicSystem.posLe)).map
              (fun v => (v.lapCount, v.distanceOnLap))).length)
      rw [List.getElem_map, List.getElem_map, Prod.mk.injEq] at hkeyi hkeyj
      obtain ⟨hli, hdi⟩ := hkeyi
      obtain ⟨hlj, hdj⟩ := hkeyj
      rw [hposi, hposj, hli, hdi, hlj, hdj]
      constructor
      · intro hij
        exact List.pairwise_iff_getElem.mp hstrict i j hi2 hj2 (by omega)
      · intro hR
        by_contra hnot
        rcases Nat.lt_or_ge j i with hji | hij2
        · exact hasymm _ _ hR (List.pairwise_iff_getElem.mp hstrict j i hj2 hi2 hji)
        · have : i = j := by omega
          subst this
          exact hasymm _ _ hR hR

/-- C2 counterexample: with two cars carrying the *same*
`(lapCount, distanceOnLap)` key — exactly what the pit-lane movement
produces when two cars with identical pit records are snapped to the same
lane position, cf. `pitRecC2`/`esC2` — the claimed iff fails: the sort
still hands out positions 1 and 2, but neither car's key is
lexicographically greater than the other's. -/
theorem updatePositions_C2_counterexample :
    ¬ positionsConsistent
        ((RaceLogicSystem.updatePositions trackA
          (mkRace [mkVehicle "d1" 1 4766, mkVehicle "d2" 2 4766])).vehicles) := by
  unfold positionsConsistent
  with_unfolding_all decide

/-- Witness for C2: a two-car race with distinct keys satisfies the
hypothesis, and the conclusion instantiates. -/
theorem updatePositions_C2_witness :
    (mkRace [mkVehicle "d1" 1 4000, mkVehicle "d2" 2 3000]).vehicles.Pairwise
        (fun x y => (x.lapCount, x.distanceOnLap) ≠ (y.lapCount, y.distanceOnLap))
    ∧ positionsConsistent
        (RaceLogicSystem.updatePositions trackA
          (mkRace [mkVehicle "d1" 1 4000, mkVehicle "d2" 2 3000])).vehicles :=
  ⟨by with_unfolding_all decide,
   (updatePositions_C2 trackA
      (mkRace [mkVehicle "d1" 1 4000, mkVehicle "d2" 2 3000])).2
     (by with_unfolding_all decide)⟩

/-- The weather pass never touches the vehicle array nor the race-control fields. -/
theorem weather_frame (js : JsMath) (track : Track) (state : RaceState)
    (t : ℚ) (rng : SeededRNG) (dt : ℚ) :
    (WeatherSystem.update js track state t rng dt).1.vehicles = state.vehicles
    ∧ (WeatherSystem.update js track state t rng dt).1.safetyCar = state.safetyCar
    ∧ (WeatherSystem.update js track state t rng dt).1.status = state.status
    ∧ (WeatherSystem.update js track state t rng dt).1.currentLap = state.currentLap
    ∧ (WeatherSystem.update js track state t rng dt).1.checkeredFlag
        = state.checkeredFlag
    ∧ (WeatherSystem.update js track state t rng dt).1.totalLaps = state.totalLaps := by
  unfold WeatherSystem.update WeatherSystem.updateWaterDepth
  split <;> exact ⟨rfl, rfl, rfl, rfl, rfl, rfl⟩

/-- Under green flag the safety-car pass is the identity. -/
theorem updateSafetyCar_none (track : Track) (state : RaceState) (timer dt : ℚ)
    (h : state.safetyCar = SafetyCarStatus.none) :
    RaceLogicSystem.updateSafetyCar track state timer dt = (state, timer) := by
  unfold RaceLogicSystem.updateSafetyCar
  rw [if_pos h]

/-- Every factor of the incident risk multiplies the `dt`-proportional base, so a zero-time frame has zero risk. -/
theorem incidentRisk_dt0 (driver : Driver) (track : Track) (state : RaceState)
    (v : VehicleState) :
    RaceLogicSystem.incidentRisk driver track state v 0 = 0 := by
  unfold RaceLogicSystem.incidentRisk
  dsimp only
  simp only [mul_zero, zero_mul, ite_self]

/-- At `dt = 0` the incident loop fires nothing: every car survives, flag and timer are untouched. -/
theorem checkIncidentsGo_dt0 (track : Track) (drivers : List Driver)
    (state : RaceState) (timer : ℚ) :
    ∀ (l : List VehicleState) (rng : SeededRNG),
      (RaceLogicSystem.checkIncidentsGo track drivers state 0 rng timer l).1 = l
      ∧ (RaceLogicSystem.checkIncidentsGo track drivers state 0 rng timer l).2.1
          = state.safetyCar
      ∧ (RaceLogicSystem.checkIncidentsGo track drivers state 0 rng timer l).2.2.1
          = timer
  | [], rng => ⟨rfl, rfl, rfl⟩
  | v :: rest, rng => by
      unfold RaceLogicSystem.checkIncidentsGo
      by_cases ha : RaceLogicSystem.isActive v = true
      · rw [if_pos ha]
        cases hf : findDriver drivers v.driverId with
        | none =>
            dsimp only
            have ih := checkIncidentsGo_dt0 track drivers state timer rest rng
            exact ⟨by rw [ih.1], ih.2.1, ih.2.2⟩
        | some driver =>
            dsimp only
            rw [incidentRisk_dt0,
              if_neg (by rw [SeededRNG.chance_zero]; exact Bool.false_ne_true)]
            have ih := checkIncidentsGo_dt0 track drivers state timer rest
              (rng.chance 0).2
            exact ⟨by rw [ih.1], ih.2.1, ih.2.2⟩
      · rw [if_neg ha]
        dsimp only
        have ih := checkIncidentsGo_dt0 track drivers state timer rest rng
        exact ⟨by rw [ih.1], ih.2.1, ih.2.2⟩

/-- At `dt = 0` the incident pass returns the state and timer unchanged (the RNG still advances). -/
theorem checkIncidents_dt0 (track : Track) (drivers : List Driver)
    (state : RaceState) (timer : ℚ) (rng : SeededRNG) :
    (RaceLogicSystem.checkIncidents track drivers state timer rng 0).1 = state
    ∧ (RaceLogicSystem.checkIncidents track drivers state timer rng 0).2.1 = timer := by
  unfold RaceLogicSystem.checkIncidents
  split
  · exact ⟨rfl, rfl⟩
  · split
    · exact ⟨rfl, rfl⟩
    · have h := checkIncidentsGo_dt0 track drivers state timer state.vehicles rng
      refine ⟨?_, h.2.2⟩
      show { state with
          vehicles := (RaceLogicSystem.checkIncidentsGo track drivers state 0 rng
            timer state.vehicles).1,
          safetyCar := (RaceLogicSystem.checkIncidentsGo track drivers state 0 rng
            timer state.vehicles).2.1 } = state
      rw [h.1, h.2.1]

/-- The DRS gate only writes `drsOpen`. -/
theorem updateDRS_coreProjP (track : Track) (state : RaceState) (v : VehicleState) :
    coreProjP (RaceLogicSystem.updateDRS track state v) = coreProjP v := by
  unfold RaceLogicSystem.updateDRS
  split
  · rfl
  · dsimp only
    split
    · split <;> rfl
    · rfl

/-- The overtake resolver only writes `speed` and `isBattling`. -/
theorem attemptOvertake_coreProjP (track : Track) (drivers : List Driver)
    (live : List VehicleState) (v : VehicleState) (rng : SeededRNG) :
    coreProjP (RaceLogicSystem.attemptOvertake track drivers live v rng).1
      = coreProjP v := by
  unfold RaceLogicSystem.attemptOvertake
  split
  · rfl
  · dsimp only
    split
    · rfl
    · split
      · split
        · rfl
        · split_ifs <;> rfl
      · rfl

/-- The position/gap pass only writes leaderboard and morale fields. -/
theorem assignOne_coreProjP (track : Track) (sorted : List VehicleState)
    (p : ℕ × VehicleState) :
    coreProjP (RaceLogicSystem.assignOne track sorted p) = coreProjP p.2 := by
  unfold RaceLogicSystem.assignOne
  dsimp only
  split
  · simp [coreProjP, coreProj, apply_ite VehicleState.id,
      apply_ite VehicleState.driverId, apply_ite VehicleState.distanceOnLap,
      apply_ite VehicleState.totalDistance, apply_ite VehicleState.lapCount,
      apply_ite VehicleState.currentLapTime, apply_ite VehicleState.pitStopCount,
      apply_ite VehicleState.tyreCompound, apply_ite VehicleState.tyreWear,
      apply_ite VehicleState.tyreAgeLaps, apply_ite VehicleState.fuelLoad,
      apply_ite VehicleState.ersLevel, apply_ite VehicleState.ersMode,
      apply_ite VehicleState.paceMode, apply_ite VehicleState.damage,
      apply_ite VehicleState.condition, apply_ite VehicleState.isInPit]
  · split <;>
      simp [coreProjP, coreProj, apply_ite VehicleState.id,
        apply_ite VehicleState.driverId, apply_ite VehicleState.distanceOnLap,
        apply_ite VehicleState.totalDistance, apply_ite VehicleState.lapCount,
        apply_ite VehicleState.currentLapTime, apply_ite VehicleState.pitStopCount,
        apply_ite VehicleState.tyreCompound, apply_ite VehicleState.tyreWear,
        apply_ite VehicleState.tyreAgeLaps, apply_ite VehicleState.fuelLoad,
        apply_ite VehicleState.ersLevel, apply_ite VehicleState.ersMode,
        apply_ite VehicleState.paceMode, apply_ite VehicleState.damage,
        apply_ite VehicleState.condition, apply_ite VehicleState.isInPit]

/-- Core projections across the whole position pass. -/
theorem assignPositionsAndGaps_map_coreProjP (track : Track)
    (sorted : List VehicleState) :
    (RaceLogicSystem.assignPositionsAndGaps track sorted).map coreProjP
      = sorted.map coreProjP := by
  unfold RaceLogicSystem.assignPositionsAndGaps
  rw [List.map_map]
  have h1 : (coreProjP ∘ RaceLogicSystem.assignOne track sorted)
      = coreProjP ∘ Prod.snd :=
    funext fun p => by
      simp [Function.comp, assignOne_coreProjP]
  rw [h1, ← List.map_map, List.enum_map_snd]

/-- `updatePositions` permutes the array but preserves every core projection. -/
theorem updatePositions_coreProjP (track : Track) (state : RaceState) :
    ((RaceLogicSystem.updatePositions track state).vehicles.map coreProjP).Perm
      (state.vehicles.map coreProjP) := by
  have h1 : (RaceLogicSystem.updatePositions track state).vehicles
      = RaceLogicSystem.assignPositionsAndGaps track
          (state.vehicles.mergeSort RaceLogicSystem.posLe) := rfl
  rw [h1, assignPositionsAndGaps_map_coreProjP]
  exact (List.mergeSort_perm state.vehicles RaceLogicSystem.posLe).map coreProjP

/-- The morale pass only writes `morale` and `concentration`. -/
theorem updateMoraleAndConcentration_coreProjP (state : RaceState) (dt : ℚ) :
    (RaceLogicSystem.updateMoraleAndConcentration state dt).vehicles.map coreProjP
      = state.vehicles.map coreProjP := by
  show (state.vehicles.map _).map coreProjP = _
  rw [List.map_map]
  exact List.map_congr_left fun v _ => rfl

/-- The spatial pass only writes the proximity flags. -/
theorem updateSpatialAwareness_coreProjP (track : Track) (state : RaceState) :
    (RaceLogicSystem.updateSpatialAwareness track state).vehicles.map coreProjP
      = state.vehicles.map coreProjP := by
  show (state.vehicles.map _).map coreProjP = _
  rw [List.map_map]
  refine List.map_congr_left fun v _ => ?_
  dsimp only [Function.comp]
  cases (RaceLogicSystem.spatialFlags track
      (state.vehicles.mergeSort RaceLogicSystem.spatialLe)).find?
        (fun f => f.1 = v.id) <;> rfl

/-- `updateFirst` with a core-preserving patch preserves the mapped core projections. -/
theorem updateFirst_map_coreProjP (p : VehicleState → Bool)
    (f : VehicleState → VehicleState)
    (hf : ∀ v, coreProjP (f v) = coreProjP v) :
    ∀ l : List VehicleState, (updateFirst p f l).map coreProjP = l.map coreProjP
  | [] => rfl
  | a :: l => by
      unfold updateFirst
      split
      · simp [hf a]
      · simp [updateFirst_map_coreProjP p f hf l]

/-- The finish check only writes `hasFinished`, race status and winner. -/
theorem checkRaceFinish_coreProjP (state : RaceState) :
    (RaceLogicSystem.checkRaceFinish state).vehicles.map coreProjP
      = state.vehicles.map coreProjP := by
  unfold RaceLogicSystem.checkRaceFinish
  have hupd : (updateFirst (fun v => decide (v.position = 1))
      (fun v => { v with hasFinished := true }) state.vehicles).map coreProjP
      = state.vehicles.map coreProjP :=
    updateFirst_map_coreProjP (fun v => decide (v.position = 1))
      (fun v => { v with hasFinished := true }) (fun v => rfl) state.vehicles
  have hfin : ∀ (c : Prop) (inst : Decidable c) (st1 : RaceState),
      (if c then { st1 with status := RaceStatus.finished } else st1).vehicles
        = st1.vehicles := by
    intro c inst st1
    split <;> rfl
  dsimp only
  rw [hfin]
  split
  · split
    · split
      · dsimp only
        exact hupd
      · rfl
    · rfl
  · rfl

/-- The pit machine is the identity for a car outside the pit lane. -/
theorem handlePitStopLogic_notInPit (track : Track) (state : RaceState)
    (v : VehicleState) (pitStates : List (String × PitProgress)) (rng : SeededRNG)
    (dt : ℚ) (h : v.isInPit = false) :
    RaceLogicSystem.handlePitStopLogic track state v pitStates rng dt
      = (v, state, pitStates, rng) := by
  unfold RaceLogicSystem.handlePitStopLogic
  rw [if_pos (by rw [h]; rfl)]

/-- One race-logic per-vehicle step preserves the core projection of a car outside the pit lane, and does not touch the threaded state or pit records. -/
theorem vehicleStep_frame (track : Track) (drivers : List Driver) (dt : ℚ)
    (c : RaceLogicSystem.Ctx) (v : VehicleState) (live : List VehicleState)
    (h : v.isInPit = false) :
    coreProjP (RaceLogicSystem.vehicleStep track drivers dt c v live).1 = coreProjP v
    ∧ (RaceLogicSystem.vehicleStep track drivers dt c v live).2.state = c.state
    ∧ (RaceLogicSystem.vehicleStep track drivers dt c v live).2.pitStates
        = c.pitStates := by
  unfold RaceLogicSystem.vehicleStep
  rw [handlePitStopLogic_notInPit track c.state v c.pitStates c.rng dt h]
  dsimp only
  refine ⟨?_, rfl, rfl⟩
  rw [attemptOvertake_coreProjP, updateDRS_coreProjP]

/-- The race-logic per-vehicle loop preserves all core projections when no car is in the pit lane. -/
theorem raceFold_frame (track : Track) (drivers : List Driver) (dt : ℚ) :
    ∀ (l done : List VehicleState) (c : RaceLogicSystem.Ctx),
      (∀ v ∈ l, v.isInPit = false) →
      (vehicleFold (RaceLogicSystem.vehicleStep track drivers dt) done l c).1.map
          coreProjP = done.map coreProjP ++ l.map coreProjP
      ∧ (vehicleFold (RaceLogicSystem.vehicleStep track drivers dt) done l c).2.state
          = c.state
      ∧ (vehicleFold (RaceLogicSystem.vehicleStep track drivers dt) done l c).2.pitStates
          = c.pitStates
  | [], done, c, _ => by
      unfold vehicleFold
      exact ⟨by simp, rfl, rfl⟩
  | v :: todo, done, c, h => by
      unfold vehicleFold
      dsimp only
      have hv := vehicleStep_frame track drivers dt c v (done ++ v :: todo)
        (h v (List.mem_cons_self v todo))
      have ih := raceFold_frame track drivers dt todo (done ++
          [(RaceLogicSystem.vehicleStep track drivers dt c v (done ++ v :: todo)).1])
        (RaceLogicSystem.vehicleStep track drivers dt c v (done ++ v :: todo)).2
        (fun u hu => h u (List.mem_cons_of_mem v hu))
      refine ⟨?_, ?_, ?_⟩
      · rw [ih.1, List.map_append, List.map_cons]
        simp [hv.1]
      · rw [ih.2.1, hv.2.1]
      · rw [ih.2.2, hv.2.2]

/-- The strategy AI only writes `boxThisLap`. -/
theorem updateStrategyAI_coreProjP (driver : Driver) (track : Track)
    (state : RaceState) (vehicle : VehicleState) (m : MathRandom) :
    coreProjP (StrategySystem.updateStrategyAI driver track state vehicle m).1
      = coreProjP vehicle := by
  unfold StrategySystem.updateStrategyAI
  simp only [apply_ite Prod.fst, apply_ite coreProjP, coreProjP, coreProj,
    apply_ite VehicleState.id, apply_ite VehicleState.driverId,
    apply_ite VehicleState.distanceOnLap, apply_ite VehicleState.totalDistance,
    apply_ite VehicleState.lapCount, apply_ite VehicleState.currentLapTime,
    apply_ite VehicleState.pitStopCount, apply_ite VehicleState.tyreCompound,
    apply_ite VehicleState.tyreWear, apply_ite VehicleState.tyreAgeLaps,
    apply_ite VehicleState.fuelLoad, apply_ite VehicleState.ersLevel,
    apply_ite VehicleState.ersMode, apply_ite VehicleState.paceMode,
    apply_ite VehicleState.damage, apply_ite VehicleState.condition,
    apply_ite VehicleState.isInPit, ite_self]

/-- At `dt = 0`, with all resources inside their clamp ranges, the resource pass is the identity. -/
theorem updateResources_dt0 (track : Track) (v : VehicleState)
    (hw : v.tyreWear ≤ 100) (hf : 0 ≤ v.fuelLoad) (he0 : 0 ≤ v.ersLevel)
    (he1 : v.ersLevel ≤ 100) :
    PhysicsSystem.updateResources track v 0 = v := by
  unfold PhysicsSystem.updateResources
  dsimp only
  simp only [mul_zero, add_zero, sub_zero]
  rw [if_neg (not_lt.mpr hw), if_neg (not_lt.mpr hf)]
  cases hm : v.ersMode <;>
    · simp only [mul_zero, add_zero, sub_zero]
      rw [if_neg (not_lt.mpr he0)]
      dsimp only
      rw [if_neg (not_lt.mpr he1), ← hm]

/-- Telemetry sampling only writes the speed trace. -/
theorem telemetrySample_coreProjP (v : VehicleState) :
    coreProjP (PhysicsSystem.telemetrySample v) = coreProjP v := by
  unfold PhysicsSystem.telemetrySample
  dsimp only
  split <;> rfl

/-- Pit-entry detection only writes `isInPit`. -/
theorem pitEntryCheck_coreProj (track : Track) (v : VehicleState) :
    coreProj (PhysicsSystem.pitEntryCheck track v) = coreProj v := by
  unfold PhysicsSystem.pitEntryCheck
  split
  · split
    · split <;> rfl
    · rfl
  · rfl

/-- A car short of the line does not cross it. -/
theorem lapCrossing_noCross (track : Track) (state : RaceState) (v : VehicleState)
    (h : v.distanceOnLap < track.totalDistance) :
    PhysicsSystem.lapCrossing track state v = (v, state) := by
  unfold PhysicsSystem.lapCrossing
  rw [if_neg (not_le.mpr h)]

/-- Sector detection only writes `currentSector`. -/
theorem sectorDetect_coreProj (track : Track) (v : VehicleState) :
    coreProj (PhysicsSystem.sectorDetect track v) = coreProj v := by
  unfold PhysicsSystem.sectorDetect
  split <;> rfl

/-- A zero-time motion integration moves nothing (only the speed field is rewritten). -/
theorem integrateMotion_coreProjP (v : VehicleState) (s : ℚ) :
    coreProjP (PhysicsSystem.integrateMotion v s 0) = coreProjP v := by
  unfold PhysicsSystem.integrateMotion
  simp [coreProjP, coreProj]

/-- At `dt = 0` the whole physics step preserves the core projection of a car outside the pit lane whose resources are in range and which is short of the line; the threaded race state is returned unchanged. -/
theorem updateVehiclePhysics_frame (js : JsMath) (track : Track) (driver : Driver)
    (state : RaceState) (live : List VehicleState) (v : VehicleState)
    (rng : SeededRNG) (hp : v.isInPit = false) (hw : v.tyreWear ≤ 100)
    (hf : 0 ≤ v.fuelLoad) (he0 : 0 ≤ v.ersLevel) (he1 : v.ersLevel ≤ 100)
    (hd : v.distanceOnLap < track.totalDistance) :
    coreProj (PhysicsSystem.updateVehiclePhysics js track driver state live v rng 0).1
      = coreProj v
    ∧ (PhysicsSystem.updateVehiclePhysics js track driver state live v rng 0).2.1
        = state := by
  unfold PhysicsSystem.updateVehiclePhysics
  rw [if_neg (by rw [hp]; exact Bool.false_ne_true)]
  dsimp only
  suffices H : ∀ sp : ℚ,
      coreProj (PhysicsSystem.updateResources track (PhysicsSystem.sectorDetect track
          (PhysicsSystem.lapCrossing track state (PhysicsSystem.pitEntryCheck track
            (PhysicsSystem.telemetrySample (PhysicsSystem.integrateMotion v sp 0)))).1) 0)
        = coreProj v
      ∧ (PhysicsSystem.lapCrossing track state (PhysicsSystem.pitEntryCheck track
          (PhysicsSystem.telemetrySample (PhysicsSystem.integrateMotion v sp 0)))).2
        = state by
    exact H _
  intro sp
  have h1 : coreProj (PhysicsSystem.integrateMotion v sp 0) = coreProj v :=
    congrArg Prod.fst (integrateMotion_coreProjP v sp)
  have h2 : coreProj (PhysicsSystem.telemetrySample
      (PhysicsSystem.integrateMotion v sp 0)) = coreProj v :=
    (congrArg Prod.fst (telemetrySample_coreProjP _)).trans h1
  have h3 : coreProj (PhysicsSystem.pitEntryCheck track
      (PhysicsSystem.telemetrySample (PhysicsSystem.integrateMotion v sp 0)))
      = coreProj v :=
    (pitEntryCheck_coreProj track _).trans h2
  have hd3 : (PhysicsSystem.pitEntryCheck track
      (PhysicsSystem.telemetrySample
        (PhysicsSystem.integrateMotion v sp 0))).distanceOnLap
      < track.totalDistance := by
    have := congrArg (fun t =>
      t.2.2.1) h3
    rw [show (PhysicsSystem.pitEntryCheck track (PhysicsSystem.telemetrySample
      (PhysicsSystem.integrateMotion v sp 0))).distanceOnLap = v.distanceOnLap
      from this]
    exact hd
  rw [lapCrossing_noCross track state _ hd3]
  dsimp only
  have h4 : coreProj (PhysicsSystem.sectorDetect track
      (PhysicsSystem.pitEntryCheck track (PhysicsSystem.telemetrySample
        (PhysicsSystem.integrateMotion v sp 0)))) = coreProj v :=
    (sectorDetect_coreProj track _).trans h3
  have hw4 : (PhysicsSystem.sectorDetect track
      (PhysicsSystem.pitEntryCheck track (PhysicsSystem.telemetrySample
        (PhysicsSystem.integrateMotion v sp 0)))).tyreWear ≤ 100 := by
    rw [show (PhysicsSystem.sectorDetect track (PhysicsSystem.pitEntryCheck track
        (PhysicsSystem.telemetrySample (PhysicsSystem.integrateMotion v sp
          0)))).tyreWear = v.tyreWear
      from congrArg (fun t => t.2.2.2.2.2.2.2.2.1) h4]
    exact hw
  have hf4 : 0 ≤ (PhysicsSystem.sectorDetect track
      (PhysicsSystem.pitEntryCheck track (PhysicsSystem.telemetrySample
        (PhysicsSystem.integrateMotion v sp 0)))).fuelLoad := by
    rw [show (PhysicsSystem.sectorDetect track (PhysicsSystem.pitEntryCheck track
        (PhysicsSystem.telemetrySample (PhysicsSystem.integrateMotion v sp
          0)))).fuelLoad = v.fuelLoad
      from congrArg (fun t => t.2.2.2.2.2.2.2.2.2.2.1) h4]
    exact hf
  have he04 : 0 ≤ (PhysicsSystem.sectorDetect track
      (PhysicsSystem.pitEntryCheck track (PhysicsSystem.telemetrySample
        (PhysicsSystem.integrateMotion v sp 0)))).ersLevel := by
    rw [show (PhysicsSystem.sectorDetect track (PhysicsSystem.pitEntryCheck track
        (PhysicsSystem.telemetrySample (PhysicsSystem.integrateMotion v sp
          0)))).ersLevel = v.ersLevel
      from congrArg (fun t => t.2.2.2.2.2.2.2.2.2.2.2.1) h4]
    exact he0
  have he14 : (PhysicsSystem.sectorDetect track
      (PhysicsSystem.pitEntryCheck track (PhysicsSystem.telemetrySample
        (PhysicsSystem.integrateMotion v sp 0)))).ersLevel ≤ 100 := by
    rw [show (PhysicsSystem.sectorDetect track (PhysicsSystem.pitEntryCheck track
        (PhysicsSystem.telemetrySample (PhysicsSystem.integrateMotion v sp
          0)))).ersLevel = v.ersLevel
      from congrArg (fun t => t.2.2.2.2.2.2.2.2.2.2.2.1) h4]
    exact he1
  rw [updateResources_dt0 track _ hw4 hf4 he04 he14]
  exact ⟨h4, rfl⟩

/-- One strategy+physics per-vehicle step at `dt = 0` preserves the core projection under `coreHyp`. -/
theorem strategyPhysicsStep_frame (js : JsMath) (track : Track)
    (drivers : List Driver) (c : SimulationEngine.PassCtx) (v : VehicleState)
    (live : List VehicleState) (h : coreHyp track v) :
    coreProj (SimulationEngine.strategyPhysicsStep js track drivers 0 c v live).1
      = coreProj v
    ∧ (SimulationEngine.strategyPhysicsStep js track drivers 0 c v live).2.state
        = c.state := by
  unfold SimulationEngine.strategyPhysicsStep
  cases hfd : findDriver drivers v.driverId with
  | none => exact ⟨rfl, rfl⟩
  | some driver =>
      dsimp only
      have hsa := updateStrategyAI_coreProjP driver track c.state v c.mathRandom
      have hsa1 : coreProj (StrategySystem.updateStrategyAI driver track c.state v
          c.mathRandom).1 = coreProj v := congrArg Prod.fst hsa
      have hsa2 : (StrategySystem.updateStrategyAI driver track c.state v
          c.mathRandom).1.isInPit = false := by
        have e : (StrategySystem.updateStrategyAI driver track c.state v
            c.mathRandom).1.isInPit = v.isInPit := congrArg Prod.snd hsa
        rw [e]
        exact h.1
      have ew : (StrategySystem.updateStrategyAI driver track c.state v
          c.mathRandom).1.tyreWear = v.tyreWear :=
        congrArg (fun t => t.2.2.2.2.2.2.2.2.1) hsa1
      have ef : (StrategySystem.updateStrategyAI driver track c.state v
          c.mathRandom).1.fuelLoad = v.fuelLoad :=
        congrArg (fun t => t.2.2.2.2.2.2.2.2.2.2.1) hsa1
      have ee : (StrategySystem.updateStrategyAI driver track c.state v
          c.mathRandom).1.ersLevel = v.ersLevel :=
        congrArg (fun t => t.2.2.2.2.2.2.2.2.2.2.2.1) hsa1
      have ed : (StrategySystem.updateStrategyAI driver track c.state v
          c.mathRandom).1.distanceOnLap = v.distanceOnLap :=
        congrArg (fun t => t.2.2.1) hsa1
      rw [if_neg (by rw [hsa2]; exact Bool.false_ne_true)]
      have hph := updateVehiclePhysics_frame js track driver c.state live
        (StrategySystem.updateStrategyAI driver track c.state v c.mathRandom).1
        c.rng hsa2
        (by rw [ew]; exact h.2.1)
        (by rw [ef]; exact h.2.2.1)
        (by rw [ee]; exact h.2.2.2.1)
        (by rw [ee]; exact h.2.2.2.2.1)
        (by rw [ed]; exact h.2.2.2.2.2)
      exact ⟨hph.1.trans hsa1, hph.2⟩

/-- The strategy+physics loop at `dt = 0` preserves all core projections under `coreHyp`. -/
theorem strategyFold_frame (js : JsMath) (track : Track) (drivers : List Driver) :
    ∀ (l done : List VehicleState) (c : SimulationEngine.PassCtx),
      (∀ v ∈ l, coreHyp track v) →
      (vehicleFold (SimulationEngine.strategyPhysicsStep js track drivers 0)
          done l c).1.map coreProj = done.map coreProj ++ l.map coreProj
      ∧ (vehicleFold (SimulationEngine.strategyPhysicsStep js track drivers 0)
          done l c).2.state = c.state
  | [], done, c, _ => by
      unfold vehicleFold
      exact ⟨by simp, rfl⟩
  | v :: todo, done, c, h => by
      unfold vehicleFold
      dsimp only
      have hv := strategyPhysicsStep_frame js track drivers c v (done ++ v :: todo)
        (h v (List.mem_cons_self v todo))
      have ih := strategyFold_frame js track drivers todo (done ++
          [(SimulationEngine.strategyPhysicsStep js track drivers 0 c v
            (done ++ v :: todo)).1])
        (SimulationEngine.strategyPhysicsStep js track drivers 0 c v
          (done ++ v :: todo)).2
        (fun u hu => h u (List.mem_cons_of_mem v hu))
      refine ⟨?_, ?_⟩
      · rw [ih.1, List.map_append, List.map_cons]
        simp [hv.1]
      · rw [ih.2, hv.2]

/-- The full race-logic pass at `dt = 0` under green flag with no car in the pit lane preserves the multiset of core projections. -/
theorem updateRaceLogic_frame (track : Track) (drivers : List Driver)
    (state : RaceState) (ps : List (String × PitProgress)) (t : ℚ)
    (rng : SeededRNG) (hsc : state.safetyCar = SafetyCarStatus.none)
    (hv : ∀ v ∈ state.vehicles, v.isInPit = false) :
    ((RaceLogicSystem.updateRaceLogic track drivers state ps t rng 0).1.vehicles.map
        coreProjP).Perm (state.vehicles.map coreProjP) := by
  unfold RaceLogicSystem.updateRaceLogic
  rw [updateSafetyCar_none track state t 0 hsc]
  dsimp only
  have hci := checkIncidents_dt0 track drivers state t rng
  rw [hci.1]
  have hfold := raceFold_frame track drivers 0 state.vehicles []
    ⟨state, ps, (RaceLogicSystem.checkIncidents track drivers state t rng 0).2.2⟩ hv
  rw [checkRaceFinish_coreProjP, updateSpatialAwareness_coreProjP,
    updateMoraleAndConcentration_coreProjP]
  refine (updatePositions_coreProjP track _).trans ?_
  show ((vehicleFold (RaceLogicSystem.vehicleStep track drivers 0) [] state.vehicles
      ⟨state, ps, (RaceLogicSystem.checkIncidents track drivers state t rng
        0).2.2⟩).1.map coreProjP).Perm (state.vehicles.map coreProjP)
  rw [hfold.1]
  simp

/-- C3 (amended): `update(0)` preserves the *integrator core* of every
vehicle — id, odometers, lap count and clock, pit count, tyre compound /
wear / age, fuel, ERS level and mode, pace mode, damage, condition — as a
multiset (the array order may change: the tick re-sorts the leaderboard),
provided the race is green-flag racing, no car is in the pit lane, the
resource levels sit inside their clamp ranges, and no car is parked
exactly on the finishing line.  The claim as stated — *no field changes*
— is false: derived fields (gaps, positions, morale, flags, weather
scalars) are recomputed each tick regardless of `dt`, and the per-frame
overtake dice are not `dt`-scaled (see the counterexample). -/
theorem update_C3 (js : JsMath) (track : Track) (drivers : List Driver)
    (es : EngineState) (hstatus : es.race.status = RaceStatus.racing)
    (hsc : es.race.safetyCar = SafetyCarStatus.none)
    (hv : ∀ v ∈ es.race.vehicles, coreHyp track v) :
    (((SimulationEngine.update js track drivers 0 es).race.vehicles).map
        coreProj).Perm (es.race.vehicles.map coreProj) := by
  unfold SimulationEngine.update
  rw [if_neg (not_not_intro hstatus)]
  dsimp only
  have hw := weather_frame js track
    { es.race with elapsedTime := es.race.elapsedTime + 0 }
    es.forecastUpdateTimer es.rng 0
  have hwv : (WeatherSystem.update js track
      { es.race with elapsedTime := es.race.elapsedTime + 0 }
      es.forecastUpdateTimer es.rng 0).1.vehicles = es.race.vehicles := hw.1
  have hwsc : (WeatherSystem.update js track
      { es.race with elapsedTime := es.race.elapsedTime + 0 }
      es.forecastUpdateTimer es.rng 0).1.safetyCar = SafetyCarStatus.none := by
    rw [hw.2.1]
    exact hsc
  have hperm1 := updateRaceLogic_frame track drivers
    (WeatherSystem.update js track
      { es.race with elapsedTime := es.race.elapsedTime + 0 }
      es.forecastUpdateTimer es.rng 0).1
    es.pitStates es.safetyCarTimer
    (WeatherSystem.update js track
      { es.race with elapsedTime := es.race.elapsedTime + 0 }
      es.forecastUpdateTimer es.rng 0).2.2
    hwsc
    (by
      rw [hwv]
      exact fun v hvm => (hv v hvm).1)
  rw [hwv] at hperm1
  have hmemhyp : ∀ v ∈ (RaceLogicSystem.updateRaceLogic track drivers
      (WeatherSystem.update js track
        { es.race with elapsedTime := es.race.elapsedTime + 0 }
        es.forecastUpdateTimer es.rng 0).1
      es.pitStates es.safetyCarTimer
      (WeatherSystem.update js track
        { es.race with elapsedTime := es.race.elapsedTime + 0 }
        es.forecastUpdateTimer es.rng 0).2.2 0).1.vehicles, coreHyp track v := by
    intro v hvm
    have h1 : coreProjP v ∈ (RaceLogicSystem.updateRaceLogic track drivers
        (WeatherSystem.update js track
          { es.race with elapsedTime := es.race.elapsedTime + 0 }
          es.forecastUpdateTimer es.rng 0).1
        es.pitStates es.safetyCarTimer
        (WeatherSystem.update js track
          { es.race with elapsedTime := es.race.elapsedTime + 0 }
          es.forecastUpdateTimer es.rng 0).2.2 0).1.vehicles.map coreProjP :=
      List.mem_map_of_mem coreProjP hvm
    have h2 : coreProjP v ∈ es.race.vehicles.map coreProjP :=
      hperm1.mem_iff.mp h1
    obtain ⟨u, hu, hequ⟩ := List.mem_map.mp h2
    have hcu := hv u hu
    have e1 : u.isInPit = v.isInPit := congrArg Prod.snd hequ
    have e2 : u.tyreWear = v.tyreWear :=
      congrArg (fun t => t.1.2.2.2.2.2.2.2.2.1) hequ
    have e3 : u.fuelLoad = v.fuelLoad :=
      congrArg (fun t => t.1.2.2.2.2.2.2.2.2.2.2.1) hequ
    have e4 : u.ersLevel = v.ersLevel :=
      congrArg (fun t => t.1.2.2.2.2.2.2.2.2.2.2.2.1) hequ
    have e5 : u.distanceOnLap = v.distanceOnLap :=
      congrArg (fun t => t.1.2.2.1) hequ
    exact ⟨e1 ▸ hcu.1, e2 ▸ hcu.2.1, e3 ▸ hcu.2.2.1, e4 ▸ hcu.2.2.2.1,
      e4 ▸ hcu.2.2.2.2.1, e5 ▸ hcu.2.2.2.2.2⟩
  have hfold2 := strategyFold_frame js track drivers
    (RaceLogicSystem.updateRaceLogic track drivers
      (WeatherSystem.update js track
        { es.race with elapsedTime := es.race.elapsedTime + 0 }
        es.forecastUpdateTimer es.rng 0).1
      es.pitStates es.safetyCarTimer
      (WeatherSystem.update js track
        { es.race with elapsedTime := es.race.elapsedTime + 0 }
        es.forecastUpdateTimer es.rng 0).2.2 0).1.vehicles
    []
    ⟨(RaceLogicSystem.updateRaceLogic track drivers
        (WeatherSystem.update js track
          { es.race with elapsedTime := es.race.elapsedTime + 0 }
          es.forecastUpdateTimer es.rng 0).1
        es.pitStates es.safetyCarTimer
        (WeatherSystem.update js track
          { es.race with elapsedTime := es.race.elapsedTime + 0 }
          es.forecastUpdateTimer es.rng 0).2.2 0).1,
      (RaceLogicSystem.updateRaceLogic track drivers
        (WeatherSystem.update js track
          { es.race with elapsedTime := es.race.elapsedTime + 0 }
          es.forecastUpdateTimer es.rng 0).1
        es.pitStates es.safetyCarTimer
        (WeatherSystem.update js track
          { es.race with elapsedTime := es.race.elapsedTime + 0 }
          es.forecastUpdateTimer es.rng 0).2.2 0).2.2.2,
      es.mathRandom⟩
    hmemhyp
  rw [hfold2.1]
  have hfst : Prod.fst ∘ coreProjP = coreProj := funext fun v => rfl
  have hperm2 := hperm1.map Prod.fst
  rw [List.map_map, List.map_map, hfst] at hperm2
  simpa using hperm2

set_option maxRecDepth 40000 in
/-- C3 counterexample: a tick of `update(0)` from `esC3` rewrites the
second car's stale `gapToAhead` from 7 s to the freshly derived 5 s —
`update(0)` is not a no-op on the published state. -/
theorem update_C3_counterexample :
    (SimulationEngine.update js1 trackA [driverA, driverB] 0 esC3).race.vehicles.map
        (fun v => v.gapToAhead)
      ≠ esC3.race.vehicles.map (fun v => v.gapToAhead) := by
  with_unfolding_all decide

/-- Witness for C3: `esC3` is racing under green flag and every car
satisfies `coreHyp`, so the amended theorem instantiates. -/
theorem update_C3_witness :
    (esC3.race.status = RaceStatus.racing
      ∧ esC3.race.safetyCar = SafetyCarStatus.none
      ∧ ∀ v ∈ esC3.race.vehicles, coreHyp trackA v)
    ∧ (((SimulationEngine.update js1 trackA [driverA, driverB] 0
          esC3).race.vehicles).map coreProj).Perm
        (esC3.race.vehicles.map coreProj) :=
  ⟨⟨rfl, rfl, by unfold coreHyp; with_unfolding_all decide⟩,
   update_C3 js1 trackA [driverA, driverB] esC3 rfl rfl
     (by unfold coreHyp; with_unfolding_all decide)⟩
